import Mathlib

/-
Shallow embedding of neutron/db/mplsvpn/mplsvpn_db.py (stackforge/networking-edge-vpn).

The SQLAlchemy models become Lean structures, the database session becomes an
explicit `Db` record of tables (lists of rows), and each plugin method becomes a
function `Db → Except Err _` or `Db → Except Err (Db × _)`.  A raised exception
is an `Except.error`; because every method body runs inside
`with context.session.begin(subtransactions=True)` and errors propagate out of
the transaction scope, an `Except.error` result means the transaction is rolled
back and the externally visible database is the pre-call one (see the `run...`
wrappers, which make that rollback explicit).

Row identifiers (the `HasId` mixin) are generated uuids, modelled by a `nextUuid`
counter in `Db`.  Queries against the session see rows appended earlier in the
same transaction (SQLAlchemy autoflush), which the explicit state threading
reproduces.  The schema declares foreign keys on both association tables
(mplsvpn_db.py lines 47-61); flushing an association INSERT whose child key does
not reference an existing row fails with a referential-integrity error from the
storage engine, which the insert helpers model with an explicit key-existence
check.  The externally owned networks table is modelled as the list of its ids.
-/

namespace MplsvpnDb

/-- neutron.plugins.common.constants.ACTIVE, used as status of new associations. -/
def ACTIVE : String := "ACTIVE"

/-- neutron.plugins.common.constants.PENDING_CREATE, initial status of a MPLSVPN. -/
def PENDING_CREATE : String := "PENDING_CREATE"

/-- uuidutils.generate_uuid, modelled as an injective function of a counter. -/
def generate_uuid (n : Nat) : String := "uuid-" ++ toString n

/-- Row of the mplsvpns table (class MPLSVPN, lines 64-80). -/
structure MPLSVPN where
  id : String
  tenant_id : String
  name : String
  status : String
  tunnel_type : String
  tunnel_backup : String
  qos : String
  bandwidth : Nat
  vpn_id : String
deriving Repr, DecidableEq

/-- Row of the attachmentcircuits table (class AttachmentCircuit, lines 29-41). -/
structure AttachmentCircuit where
  id : String
  tenant_id : String
  name : String
  network_type : String
  provider_edge_id : String
deriving Repr, DecidableEq

/-- Row of the acnetworkassociations table (class ACNetworkAssociation, lines 44-51). -/
structure ACNetworkAssociation where
  id : String
  status : String
  attachmentcircuit_id : String
  network_id : String
deriving Repr, DecidableEq

/-- Row of the acmplsvpnassociations table (class ACMPLSVPNAssociation, lines 54-61). -/
structure ACMPLSVPNAssociation where
  id : String
  status : String
  mplsvpn_id : String
  attachmentcircuit_id : String
deriving Repr, DecidableEq

/-- Row of the provideredges table (class ProviderEdge, lines 83-85). -/
structure ProviderEdge where
  id : String
  name : String
deriving Repr, DecidableEq

/-- The database state: one list per table, plus the uuid-generator counter.
`networks` is the externally owned networks table, kept as ids only, used by
the foreign key of ACNetworkAssociation.network_id. -/
structure Db where
  mplsvpns : List MPLSVPN
  attachmentcircuits : List AttachmentCircuit
  provideredges : List ProviderEdge
  acmplsvpnassociations : List ACMPLSVPNAssociation
  acnetworkassociations : List ACNetworkAssociation
  networks : List String
  nextUuid : Nat
deriving Repr, DecidableEq

/-- The exceptions raised by the module: the typed errors of
neutron.extensions.mplsvpn, the generic sqlalchemy.orm.exc.NoResultFound that
_get_resource re-raises for non-entity models, the referential-integrity error
the storage engine raises on a foreign-key violation, and the AttributeError
raised when add_network_to_attachmentcircuit dereferences a missing circuit. -/
inductive Err where
  | mplsvpnNotFound (mplsvpn_id : String)
  | attachmentCircuitNotFound (attachmentcircuit_id : String)
  | providerEdgeNotFound (provideredge_id : String)
  | duplicateMPLSVPNForTenant (mplsvpn_id : String) (tenant_id : String)
  | duplicateAttachmentCircuitForTenant (attachmentcircuit_id : String) (tenant_id : String)
  | noResultFound
  | referentialIntegrityError
  | noneTypeAttributeError
deriving Repr, DecidableEq

/-- The model classes _get_resource can be called with. -/
inductive Model where
  | mplsvpn
  | attachmentCircuit
  | providerEdge
  | acmplsvpnAssociation
  | acnetworkAssociation
deriving Repr, DecidableEq

/-- The row type stored in the table of each model. -/
def Model.Row : Model → Type
  | .mplsvpn => MPLSVPN
  | .attachmentCircuit => AttachmentCircuit
  | .providerEdge => ProviderEdge
  | .acmplsvpnAssociation => ACMPLSVPNAssociation
  | .acnetworkAssociation => ACNetworkAssociation

/-- CommonDbMixin._get_by_id: look up a row by its id column.  Returns the first
matching row; id is a generated-uuid primary-key column, so well-formed states
have at most one match. -/
def getById (db : Db) : (m : Model) → String → Option m.Row
  | .mplsvpn, vId => db.mplsvpns.find? (fun r => r.id == vId)
  | .attachmentCircuit, vId => db.attachmentcircuits.find? (fun r => r.id == vId)
  | .providerEdge, vId => db.provideredges.find? (fun r => r.id == vId)
  | .acmplsvpnAssociation, vId => db.acmplsvpnassociations.find? (fun r => r.id == vId)
  | .acnetworkAssociation, vId => db.acnetworkassociations.find? (fun r => r.id == vId)

/-- The issubclass chain of _get_resource (lines 98-108): for the three entity
models the NoResultFound is replaced by the typed error carrying the requested
id; for any other model the save_and_reraise_exception re-raises the original
NoResultFound. -/
def notFoundFor : Model → String → Err
  | .mplsvpn, vId => .mplsvpnNotFound vId
  | .attachmentCircuit, vId => .attachmentCircuitNotFound vId
  | .providerEdge, vId => .providerEdgeNotFound vId
  | .acmplsvpnAssociation, _ => .noResultFound
  | .acnetworkAssociation, _ => .noResultFound

/-- MPLSVPNPluginDb._get_resource (lines 95-109). -/
def getResource (db : Db) (m : Model) (vId : String) : Except Err m.Row :=
  match getById db m vId with
  | some r => .ok r
  | none => .error (notFoundFor m vId)

/-- Projection of the tunnel option columns (_create_tunneloptions_dict, lines 147-152). -/
structure TunnelOptionsDict where
  tunnel_type : String
  tunnel_backup : String
  qos : String
  bandwidth : Nat
deriving Repr, DecidableEq

/-- Projection returned by _make_mplsvpn_dict (lines 154-163). -/
structure MplsvpnDict where
  id : String
  tenant_id : String
  name : String
  vpn_id : String
  tunnel_options : TunnelOptionsDict
  status : String
  attachment_circuits : List String
deriving Repr, DecidableEq

/-- Projection returned by _make_attachmentcircuit_dict (lines 310-317). -/
structure AttachmentCircuitDict where
  id : String
  tenant_id : String
  name : String
  network_type : String
  provider_edge_id : String
  networks : List String
deriving Repr, DecidableEq

/-- _create_tunneloptions_dict (lines 147-152). -/
def _create_tunneloptions_dict (m : MPLSVPN) : TunnelOptionsDict :=
  { tunnel_type := m.tunnel_type
    tunnel_backup := m.tunnel_backup
    qos := m.qos
    bandwidth := m.bandwidth }

/-- _make_mplsvpn_dict (lines 154-163); mplsvpn.attachment_circuits is the
relationship of line 78, i.e. the association rows whose mplsvpn_id is the id
of this row. -/
def _make_mplsvpn_dict (db : Db) (m : MPLSVPN) : MplsvpnDict :=
  { id := m.id
    tenant_id := m.tenant_id
    name := m.name
    vpn_id := m.vpn_id
    tunnel_options := _create_tunneloptions_dict m
    status := m.status
    attachment_circuits :=
      ((db.acmplsvpnassociations.filter (fun r => r.mplsvpn_id == m.id)).map
        (fun r => r.attachmentcircuit_id)) }

/-- _make_attachmentcircuit_dict (lines 310-317); attachmentcircuit.networks is
the relationship of line 39. -/
def _make_attachmentcircuit_dict (db : Db) (ac : AttachmentCircuit) : AttachmentCircuitDict :=
  { id := ac.id
    tenant_id := ac.tenant_id
    name := ac.name
    network_type := ac.network_type
    provider_edge_id := ac.provider_edge_id
    networks :=
      ((db.acnetworkassociations.filter (fun r => r.attachmentcircuit_id == ac.id)).map
        (fun r => r.network_id)) }

/-- The child keys currently associated to a given mplsvpn: the
attachmentcircuit_id column of its association rows. -/
def acVpnChildKeys (db : Db) (mplsvpn_id : String) : List String :=
  (db.acmplsvpnassociations.filter (fun r => r.mplsvpn_id == mplsvpn_id)).map
    (fun r => r.attachmentcircuit_id)

/-- The child keys currently associated to a given attachment circuit: the
network_id column of its association rows. -/
def acNetChildKeys (db : Db) (attachmentcircuit_id : String) : List String :=
  (db.acnetworkassociations.filter
      (fun r => r.attachmentcircuit_id == attachmentcircuit_id)).map
    (fun r => r.network_id)

/-- First loop of _modify_mplsvpn_ac_associations (lines 124-129): for each
association of the parent whose attachmentcircuit_id is not in the updated list,
fetch it by id through _get_resource and delete it.  The second component counts
the DELETEs performed. -/
def deleteStaleAcVpnAssocs (db : Db) (ac_id_list : List String) :
    List ACMPLSVPNAssociation → Except Err (Db × Nat)
  | [] => .ok (db, 0)
  | assoc :: rest =>
    if assoc.attachmentcircuit_id ∈ ac_id_list then
      deleteStaleAcVpnAssocs db ac_id_list rest
    else
      match getResource db .acmplsvpnAssociation assoc.id with
      | .error e => .error e
      | .ok assoc_db =>
        match deleteStaleAcVpnAssocs
            { db with acmplsvpnassociations := db.acmplsvpnassociations.erase assoc_db }
            ac_id_list rest with
        | .error e => .error e
        | .ok (db', n) => .ok (db', n + 1)

/-- Second loop of _modify_mplsvpn_ac_associations (lines 137-145): for each id
of the updated list with no association row for the parent, append a new
association with status ACTIVE.  Flushing the new row checks the foreign keys
declared on lines 57-61 (engine-enforced referential integrity); a key that
references no existing row makes the transaction fail.  The second component
counts the INSERTs performed. -/
def insertMissingAcVpnAssocs (db : Db) (mplsvpn_id : String) :
    List String → Except Err (Db × Nat)
  | [] => .ok (db, 0)
  | attachmentcircuit_id :: rest =>
    match db.acmplsvpnassociations.find? (fun r =>
        r.mplsvpn_id == mplsvpn_id && r.attachmentcircuit_id == attachmentcircuit_id) with
    | some _ => insertMissingAcVpnAssocs db mplsvpn_id rest
    | none =>
      if db.mplsvpns.any (fun r => r.id == mplsvpn_id) &&
          db.attachmentcircuits.any (fun r => r.id == attachmentcircuit_id) then
        match insertMissingAcVpnAssocs
            { db with
              acmplsvpnassociations := db.acmplsvpnassociations ++
                [{ id := generate_uuid db.nextUuid
                   status := ACTIVE
                   mplsvpn_id := mplsvpn_id
                   attachmentcircuit_id := attachmentcircuit_id }]
              nextUuid := db.nextUuid + 1 } mplsvpn_id rest with
        | .error e => .error e
        | .ok (db', n) => .ok (db', n + 1)
      else .error .referentialIntegrityError

/-- _modify_mplsvpn_ac_associations (lines 115-145): delete the stale
associations of the parent, fetch the parent (MPLSVPNNotFound if absent), then
insert the missing associations.  Returns the new state with the numbers of
inserted and deleted rows. -/
def modify_mplsvpn_ac_associations (db : Db) (mplsvpn_id : String)
    (ac_id_list : List String) : Except Err (Db × Nat × Nat) :=
  match deleteStaleAcVpnAssocs db ac_id_list
      (db.acmplsvpnassociations.filter (fun r => r.mplsvpn_id == mplsvpn_id)) with
  | .error e => .error e
  | .ok (db1, nDel) =>
    match getResource db1 .mplsvpn mplsvpn_id with
    | .error e => .error e
    | .ok _ =>
      match insertMissingAcVpnAssocs db1 mplsvpn_id ac_id_list with
      | .error e => .error e
      | .ok (db2, nIns) => .ok (db2, nIns, nDel)

/-- The transaction scope of line 116 as seen by the outermost caller: on
success the new state is committed, on any error the scope is rolled back and
the database is exactly the pre-call one, with the error propagated. -/
def runReconcileMplsvpnAc (db : Db) (mplsvpn_id : String) (ac_id_list : List String) :
    Db × Option Err :=
  match modify_mplsvpn_ac_associations db mplsvpn_id ac_id_list with
  | .ok (db', _, _) => (db', none)
  | .error e => (db, some e)

/-- First loop of _modify_ac_networks_associations (lines 260-265). -/
def deleteStaleAcNetAssocs (db : Db) (network_id_list : List String) :
    List ACNetworkAssociation → Except Err (Db × Nat)
  | [] => .ok (db, 0)
  | assoc :: rest =>
    if assoc.network_id ∈ network_id_list then
      deleteStaleAcNetAssocs db network_id_list rest
    else
      match getResource db .acnetworkAssociation assoc.id with
      | .error e => .error e
      | .ok assoc_db =>
        match deleteStaleAcNetAssocs
            { db with acnetworkassociations := db.acnetworkassociations.erase assoc_db }
            network_id_list rest with
        | .error e => .error e
        | .ok (db', n) => .ok (db', n + 1)

/-- Second loop of _modify_ac_networks_associations (lines 270-279); the flush
of the new row checks the foreign keys declared on lines 47-51. -/
def insertMissingAcNetAssocs (db : Db) (attachmentcircuit_id : String) :
    List String → Except Err (Db × Nat)
  | [] => .ok (db, 0)
  | network_id :: rest =>
    match db.acnetworkassociations.find? (fun r =>
        r.attachmentcircuit_id == attachmentcircuit_id && r.network_id == network_id) with
    | some _ => insertMissingAcNetAssocs db attachmentcircuit_id rest
    | none =>
      if db.attachmentcircuits.any (fun r => r.id == attachmentcircuit_id) &&
          db.networks.contains network_id then
        match insertMissingAcNetAssocs
            { db with
              acnetworkassociations := db.acnetworkassociations ++
                [{ id := generate_uuid db.nextUuid
                   status := ACTIVE
                   attachmentcircuit_id := attachmentcircuit_id
                   network_id := network_id }]
              nextUuid := db.nextUuid + 1 } attachmentcircuit_id rest with
        | .error e => .error e
        | .ok (db', n) => .ok (db', n + 1)
      else .error .referentialIntegrityError

/-- _modify_ac_networks_associations (lines 252-279). -/
def modify_ac_networks_associations (db : Db) (attachmentcircuit_id : String)
    (network_id_list : List String) : Except Err (Db × Nat × Nat) :=
  match deleteStaleAcNetAssocs db network_id_list
      (db.acnetworkassociations.filter
        (fun r => r.attachmentcircuit_id == attachmentcircuit_id)) with
  | .error e => .error e
  | .ok (db1, nDel) =>
    match getResource db1 .attachmentCircuit attachmentcircuit_id with
    | .error e => .error e
    | .ok _ =>
      match insertMissingAcNetAssocs db1 attachmentcircuit_id network_id_list with
      | .error e => .error e
      | .ok (db2, nIns) => .ok (db2, nIns, nDel)

/-- The transaction scope of line 255 as seen by the outermost caller. -/
def runReconcileAcNet (db : Db) (attachmentcircuit_id : String)
    (network_id_list : List String) : Db × Option Err :=
  match modify_ac_networks_associations db attachmentcircuit_id network_id_list with
  | .ok (db', _, _) => (db', none)
  | .error e => (db, some e)

/-- The tunnel_options sub-object of a create_mplsvpn payload.  A field that is
absent from the payload dict is `none`; a field present with an empty value is
`some ""` (resp. `some 0`), which Python truthiness treats like absence on
lines 181-188.  A payload whose tunnel_options dict is empty is equivalent to
`none` (an empty dict is falsy at line 180, and so is every one of its gets). -/
structure TunnelOptionsPayload where
  tunnel_type : Option String := none
  tunnel_backup : Option String := none
  qos : Option String := none
  bandwidth : Option Nat := none
deriving Repr, DecidableEq

/-- The mplsvpn payload dict consumed by create_mplsvpn; tenant_id stands for
the externally resolved _get_tenant_id_for_create result. -/
structure MplsvpnPayload where
  tenant_id : String
  name : String
  vpn_id : String
  tunnel_options : Option TunnelOptionsPayload := none
  attachment_circuits : List String
deriving Repr, DecidableEq

/-- Lines 181-182 and their three analogues: keep the default unless the field
is present with a truthy (non-empty) value. -/
def pickStr (dflt : String) : Option String → String
  | some v => if v == "" then dflt else v
  | none => dflt

/-- Same truthiness for the integer bandwidth field (0 is falsy). -/
def pickNat (dflt : Nat) : Option Nat → Nat
  | some v => if v == 0 then dflt else v
  | none => dflt

/-- create_mplsvpn (lines 165-205): duplicate-per-tenant check, tunnel-option
defaulting, insert of the new row with status PENDING_CREATE, association
reconciliation, projection of the result. -/
def create_mplsvpn (db : Db) (mplsvpn : MplsvpnPayload) :
    Except Err (Db × MplsvpnDict) :=
  let tenant_id := mplsvpn.tenant_id
  match db.mplsvpns.find? (fun r => r.tenant_id == tenant_id) with
  | some mplsvpn_db => .error (.duplicateMPLSVPNForTenant mplsvpn_db.id tenant_id)
  | none =>
    let tunnel_type := match mplsvpn.tunnel_options with
      | some topts => pickStr "fullmesh" topts.tunnel_type
      | none => "fullmesh"
    let tunnel_backup := match mplsvpn.tunnel_options with
      | some topts => pickStr "frr" topts.tunnel_backup
      | none => "frr"
    let qos := match mplsvpn.tunnel_options with
      | some topts => pickStr "Gold" topts.qos
      | none => "Gold"
    let bandwidth := match mplsvpn.tunnel_options with
      | some topts => pickNat 10 topts.bandwidth
      | none => 10
    let mplsvpns_db : MPLSVPN :=
      { id := generate_uuid db.nextUuid
        tenant_id := tenant_id
        name := mplsvpn.name
        status := PENDING_CREATE
        tunnel_type := tunnel_type
        tunnel_backup := tunnel_backup
        qos := qos
        bandwidth := bandwidth
        vpn_id := mplsvpn.vpn_id }
    let db1 := { db with mplsvpns := db.mplsvpns ++ [mplsvpns_db]
                         nextUuid := db.nextUuid + 1 }
    match modify_mplsvpn_ac_associations db1 mplsvpns_db.id mplsvpn.attachment_circuits with
    | .error e => .error e
    | .ok (db2, _, _) => .ok (db2, _make_mplsvpn_dict db2 mplsvpns_db)

/-- create_mplsvpn at the outermost transaction boundary: an error rolls back
every write of the call. -/
def runCreateMplsvpn (db : Db) (mplsvpn : MplsvpnPayload) :
    Db × Option Err :=
  match create_mplsvpn db mplsvpn with
  | .ok (db', _) => (db', none)
  | .error e => (db, some e)

/-- The attachment_circuit payload dict consumed by create_attachment_circuit. -/
structure AttachmentCircuitPayload where
  tenant_id : String
  name : String
  network_type : String
  provider_edge_id : String
  networks : List String
deriving Repr, DecidableEq

/-- create_attachment_circuit (lines 319-342). -/
def create_attachment_circuit (db : Db) (attachment_circuit : AttachmentCircuitPayload) :
    Except Err (Db × AttachmentCircuitDict) :=
  let tenant_id := attachment_circuit.tenant_id
  match db.attachmentcircuits.find? (fun r => r.tenant_id == tenant_id) with
  | some attachmentcircuit_db =>
    .error (.duplicateAttachmentCircuitForTenant attachmentcircuit_db.id tenant_id)
  | none =>
    let attachmentcircuits_db : AttachmentCircuit :=
      { id := generate_uuid db.nextUuid
        tenant_id := tenant_id
        name := attachment_circuit.name
        network_type := attachment_circuit.network_type
        provider_edge_id := attachment_circuit.provider_edge_id }
    let db1 := { db with attachmentcircuits := db.attachmentcircuits ++ [attachmentcircuits_db]
                         nextUuid := db.nextUuid + 1 }
    match modify_ac_networks_associations db1 attachmentcircuits_db.id
        attachment_circuit.networks with
    | .error e => .error e
    | .ok (db2, _, _) => .ok (db2, _make_attachmentcircuit_dict db2 attachmentcircuits_db)

/-- create_attachment_circuit at the outermost transaction boundary. -/
def runCreateAttachmentCircuit (db : Db) (attachment_circuit : AttachmentCircuitPayload) :
    Db × Option Err :=
  match create_attachment_circuit db attachment_circuit with
  | .ok (db', _) => (db', none)
  | .error e => (db, some e)

/-- Replace the first row whose id matches, leaving every other row in place:
the in-place mutation of the single ORM object returned by _get_by_id. -/
def updateFirstMplsvpn (vId : String) (f : MPLSVPN → MPLSVPN) :
    List MPLSVPN → List MPLSVPN
  | [] => []
  | r :: rest =>
    if r.id == vId then f r :: rest else r :: updateFirstMplsvpn vId f rest

/-- The payload of update_mplsvpn_status_and_name: the id, name and status keys
read on lines 220-222. -/
structure MplsvpnStatusNamePayload where
  id : String
  name : String
  status : String
deriving Repr, DecidableEq

/-- update_mplsvpn_status_and_name (lines 218-223): fetch the row, overwrite its
name and status columns, return its projection. -/
def update_mplsvpn_status_and_name (db : Db) (mplsvpn : MplsvpnStatusNamePayload) :
    Except Err (Db × MplsvpnDict) :=
  match getResource db .mplsvpn mplsvpn.id with
  | .error e => .error e
  | .ok mplsvpns_db =>
    let db' := { db with
      mplsvpns := updateFirstMplsvpn mplsvpn.id
        (fun r => { r with name := mplsvpn.name, status := mplsvpn.status }) db.mplsvpns }
    .ok (db', _make_mplsvpn_dict db'
      { mplsvpns_db with name := mplsvpn.name, status := mplsvpn.status })

/-- delete_mplsvpn (lines 225-228): fetch-or-fail, then delete the row; the
cascade of the attachment_circuits relationship (lines 78-80, cascade all)
deletes every ACMPLSVPNAssociation row of this mplsvpn in the same transaction. -/
def delete_mplsvpn (db : Db) (mplsvpn_id : String) : Except Err Db :=
  match getResource db .mplsvpn mplsvpn_id with
  | .error e => .error e
  | .ok mplsvpns_db =>
    .ok { db with
      mplsvpns := db.mplsvpns.erase mplsvpns_db
      acmplsvpnassociations := db.acmplsvpnassociations.filter
        (fun r => !(r.mplsvpn_id == mplsvpns_db.id)) }

/-- delete_attachment_circuit (lines 357-362); the cascade of the networks
relationship (lines 39-41, cascade all) deletes every ACNetworkAssociation row
of this circuit in the same transaction.  There is no relationship from the
circuit to ACMPLSVPNAssociation, so nothing cascades on that table: flushing
the DELETE checks the foreign key of lines 59-61 at the storage engine, and a
circuit still referenced by an AC-VPN association row makes the transaction
fail with a referential-integrity error. -/
def delete_attachment_circuit (db : Db) (attachmentcircuit_id : String) : Except Err Db :=
  match getResource db .attachmentCircuit attachmentcircuit_id with
  | .error e => .error e
  | .ok attachmentcircuits_db =>
    if db.acmplsvpnassociations.any
        (fun r => r.attachmentcircuit_id == attachmentcircuits_db.id) then
      .error .referentialIntegrityError
    else
      .ok { db with
        attachmentcircuits := db.attachmentcircuits.erase attachmentcircuits_db
        acnetworkassociations := db.acnetworkassociations.filter
          (fun r => !(r.attachmentcircuit_id == attachmentcircuits_db.id)) }

/-- delete_attachment_circuit at the outermost transaction boundary: an error
rolls back every write of the call. -/
def runDeleteAttachmentCircuit (db : Db) (attachmentcircuit_id : String) :
    Db × Option Err :=
  match delete_attachment_circuit db attachmentcircuit_id with
  | .ok db' => (db', none)
  | .error e => (db, some e)

/-- add_network_to_attachmentcircuit (lines 281-296): if an association row for
the pair already exists, nothing happens; otherwise a new ACTIVE association is
appended to the circuit (dereferencing the circuit fetched with first(), which
is an AttributeError on None when the circuit does not exist; the flush checks
the foreign keys of lines 47-51). -/
def add_network_to_attachmentcircuit (db : Db)
    (attachmentcircuit_id network_id : String) : Except Err Db :=
  match db.acnetworkassociations.find? (fun r =>
      r.attachmentcircuit_id == attachmentcircuit_id && r.network_id == network_id) with
  | some _ => .ok db
  | none =>
    match db.attachmentcircuits.find? (fun r => r.id == attachmentcircuit_id) with
    | none => .error .noneTypeAttributeError
    | some _ =>
      if db.networks.contains network_id then
        .ok { db with
          acnetworkassociations := db.acnetworkassociations ++
            [{ id := generate_uuid db.nextUuid
               status := ACTIVE
               attachmentcircuit_id := attachmentcircuit_id
               network_id := network_id }]
          nextUuid := db.nextUuid + 1 }
      else .error .referentialIntegrityError

/-- remove_network_from_attachmentcircuit (lines 298-308): delete the
association row for the pair when there is one, do nothing otherwise. -/
def remove_network_from_attachmentcircuit (db : Db)
    (attachmentcircuit_id network_id : String) : Db :=
  match db.acnetworkassociations.find? (fun r =>
      r.attachmentcircuit_id == attachmentcircuit_id && r.network_id == network_id) with
  | some assoc => { db with acnetworkassociations := db.acnetworkassociations.erase assoc }
  | none => db

/-! ### Helper lemmas about keyed lookup in lists -/

/-- In a list whose keys are duplicate-free, find? by the key of a member
returns exactly that member. -/
lemma find_key_of_nodup {α : Type} (f : α → String) :
    ∀ {l : List α} {a : α}, (l.map f).Nodup → a ∈ l →
      l.find? (fun r => f r == f a) = some a := by
  intro l
  induction l with
  | nil => intro a _ h; exact absurd h (List.not_mem_nil a)
  | cons b t ih =>
    intro a hnd hmem
    by_cases hb : (f b == f a) = true
    · have hfb : f b = f a := beq_iff_eq.mp hb
      have hba : b = a := by
        rcases List.mem_cons.mp hmem with h | h
        · exact h.symm
        · exfalso
          have hmapmem : f a ∈ t.map f := List.mem_map_of_mem f h
          rw [← hfb] at hmapmem
          exact (List.nodup_cons.mp hnd).1 hmapmem
      subst hba
      simp [List.find?_cons, hb]
    · have hat : a ∈ t := by
        rcases List.mem_cons.mp hmem with h | h
        · exact absurd (beq_iff_eq.mpr (congrArg f h.symm)) hb
        · exact h
      have hb' : (f b == f a) = false := by
        simpa using hb
      simp only [List.find?_cons, hb']
      exact ih (List.nodup_cons.mp hnd).2 hat

/-- After erasing the unique row holding a key, find? by that key fails. -/
lemma find_key_erase_eq_none {α : Type} [DecidableEq α] (f : α → String) {l : List α}
    {a : α} {k : String} (hnd : (l.map f).Nodup) (ha : a ∈ l) (hk : f a = k) :
    (l.erase a).find? (fun r => f r == k) = none := by
  have hlnd : l.Nodup := hnd.of_map f
  rw [hlnd.erase_eq_filter a, List.find?_eq_none]
  intro r hr hbeq
  have hrl := (List.mem_filter.mp hr).1
  have hne : r ≠ a := by
    have := (List.mem_filter.mp hr).2
    simpa using this
  have hfr : f r = f a := by
    have := beq_iff_eq.mp hbeq
    rw [this, hk]
  exact hne (List.inj_on_of_nodup_map hnd hrl ha hfr)

/-- A member of a list whose keys are duplicate-free makes any? by its key true. -/
lemma any_key_of_find {α : Type} (f : α → String) {l : List α} {a : α} {k : String}
    (h : l.find? (fun r => f r == k) = some a) : l.any (fun r => f r == k) = true := by
  have hmem : a ∈ l := List.mem_of_find?_eq_some h
  have hp := List.find?_some h
  exact List.any_eq_true.mpr ⟨a, hmem, by simpa using hp⟩

/-! ### Frame predicates: which tables an operation leaves untouched -/

/-- Everything except the acmplsvpnassociations table and the uuid counter agrees. -/
def EqExceptAcVpnAssocs (db db' : Db) : Prop :=
  db'.mplsvpns = db.mplsvpns ∧ db'.attachmentcircuits = db.attachmentcircuits ∧
  db'.provideredges = db.provideredges ∧
  db'.acnetworkassociations = db.acnetworkassociations ∧ db'.networks = db.networks

/-- Everything except the acnetworkassociations table and the uuid counter agrees. -/
def EqExceptAcNetAssocs (db db' : Db) : Prop :=
  db'.mplsvpns = db.mplsvpns ∧ db'.attachmentcircuits = db.attachmentcircuits ∧
  db'.provideredges = db.provideredges ∧
  db'.acmplsvpnassociations = db.acmplsvpnassociations ∧ db'.networks = db.networks

lemma eqExceptAcVpnAssocs_refl (db : Db) : EqExceptAcVpnAssocs db db :=
  ⟨rfl, rfl, rfl, rfl, rfl⟩

lemma eqExceptAcVpnAssocs_trans {db1 db2 db3 : Db} (h : EqExceptAcVpnAssocs db1 db2)
    (h' : EqExceptAcVpnAssocs db2 db3) : EqExceptAcVpnAssocs db1 db3 := by
  obtain ⟨a, b, c, d, e⟩ := h
  obtain ⟨a', b', c', d', e'⟩ := h'
  exact ⟨a'.trans a, b'.trans b, c'.trans c, d'.trans d, e'.trans e⟩

lemma eqExceptAcNetAssocs_refl (db : Db) : EqExceptAcNetAssocs db db :=
  ⟨rfl, rfl, rfl, rfl, rfl⟩

lemma eqExceptAcNetAssocs_trans {db1 db2 db3 : Db} (h : EqExceptAcNetAssocs db1 db2)
    (h' : EqExceptAcNetAssocs db2 db3) : EqExceptAcNetAssocs db1 db3 := by
  obtain ⟨a, b, c, d, e⟩ := h
  obtain ⟨a', b', c', d', e'⟩ := h'
  exact ⟨a'.trans a, b'.trans b, c'.trans c, d'.trans d, e'.trans e⟩

/-- There is an association row linking mplsvpn v to attachment circuit k. -/
def acVpnAssocExists (db : Db) (v k : String) : Prop :=
  ∃ r ∈ db.acmplsvpnassociations, r.mplsvpn_id = v ∧ r.attachmentcircuit_id = k

/-- There is an association row linking attachment circuit a to network k. -/
def acNetAssocExists (db : Db) (a k : String) : Prop :=
  ∃ r ∈ db.acnetworkassociations, r.attachmentcircuit_id = a ∧ r.network_id = k

lemma mem_acVpnChildKeys {db : Db} {v k : String} :
    k ∈ acVpnChildKeys db v ↔ acVpnAssocExists db v k := by
  simp only [acVpnChildKeys, acVpnAssocExists, List.mem_map, List.mem_filter,
    beq_iff_eq]
  constructor
  · rintro ⟨r, ⟨hr, hv⟩, hk⟩
    exact ⟨r, hr, hv, hk⟩
  · rintro ⟨r, hr, hv, hk⟩
    exact ⟨r, ⟨hr, hv⟩, hk⟩

lemma mem_acNetChildKeys {db : Db} {a k : String} :
    k ∈ acNetChildKeys db a ↔ acNetAssocExists db a k := by
  simp only [acNetChildKeys, acNetAssocExists, List.mem_map, List.mem_filter,
    beq_iff_eq]
  constructor
  · rintro ⟨r, ⟨hr, ha⟩, hk⟩
    exact ⟨r, hr, ha, hk⟩
  · rintro ⟨r, hr, ha, hk⟩
    exact ⟨r, ⟨hr, ha⟩, hk⟩

/-! ### Unfolding equations for getById at each model -/

lemma getById_mplsvpn (db : Db) (vId : String) :
    getById db .mplsvpn vId = db.mplsvpns.find? (fun r => r.id == vId) := rfl

lemma getById_attachmentCircuit (db : Db) (vId : String) :
    getById db .attachmentCircuit vId =
      db.attachmentcircuits.find? (fun r => r.id == vId) := rfl

lemma getById_providerEdge (db : Db) (vId : String) :
    getById db .providerEdge vId = db.provideredges.find? (fun r => r.id == vId) := rfl

lemma getById_acmplsvpn (db : Db) (vId : String) :
    getById db .acmplsvpnAssociation vId =
      db.acmplsvpnassociations.find? (fun r => r.id == vId) := rfl

lemma getById_acnetwork (db : Db) (vId : String) :
    getById db .acnetworkAssociation vId =
      db.acnetworkassociations.find? (fun r => r.id == vId) := rfl

/-! ### The delete pass of the mplsvpn-side reconciler -/

/-- The delete pass always succeeds on a well-keyed table and removes exactly
the associations of the pending list whose child key is absent from the
desired list. -/
lemma deleteStaleAcVpn_spec (d : List String) :
    ∀ (pending : List ACMPLSVPNAssociation) (db : Db),
      List.Sublist pending db.acmplsvpnassociations →
      (db.acmplsvpnassociations.map (fun r => r.id)).Nodup →
      ∃ db' n, deleteStaleAcVpnAssocs db d pending = .ok (db', n) ∧
        db'.acmplsvpnassociations = db.acmplsvpnassociations.filter
          (fun r => decide (r ∈ pending → r.attachmentcircuit_id ∈ d)) ∧
        EqExceptAcVpnAssocs db db' ∧ db'.nextUuid = db.nextUuid := by
  intro pending
  induction pending with
  | nil =>
    intro db _ _
    refine ⟨db, 0, rfl, ?_, eqExceptAcVpnAssocs_refl db, rfl⟩
    rw [List.filter_eq_self.mpr]
    intro r _
    simp
  | cons a rest ih =>
    intro db hsub hnd
    by_cases hin : a.attachmentcircuit_id ∈ d
    · obtain ⟨db', n, heq, hfil, hfr, hnx⟩ :=
        ih db (List.sublist_of_cons_sublist hsub) hnd
      refine ⟨db', n, ?_, ?_, hfr, hnx⟩
      · simp only [deleteStaleAcVpnAssocs, if_pos hin]
        exact heq
      · rw [hfil]
        apply List.filter_congr
        intro r _
        apply decide_eq_decide.mpr
        constructor
        · intro himp hmem
          rcases List.mem_cons.mp hmem with h | h
          · rw [h]; exact hin
          · exact himp h
        · intro himp hmem
          exact himp (List.mem_cons_of_mem a hmem)
    · have ha_l : a ∈ db.acmplsvpnassociations := hsub.subset (List.mem_cons_self a rest)
      have hlnd : db.acmplsvpnassociations.Nodup := hnd.of_map _
      have hfind : db.acmplsvpnassociations.find? (fun r => r.id == a.id) = some a :=
        find_key_of_nodup (fun r => r.id) hnd ha_l
      have hres : getResource db .acmplsvpnAssociation a.id = .ok a := by
        simp only [getResource, getById_acmplsvpn, hfind]
      have hacons : (a :: rest).Nodup := hlnd.sublist hsub
      have hanr : a ∉ rest := (List.nodup_cons.mp hacons).1
      have herase : db.acmplsvpnassociations.erase a =
          db.acmplsvpnassociations.filter (· != a) := hlnd.erase_eq_filter a
      have hrest_self : rest.filter (· != a) = rest := by
        rw [List.filter_eq_self.mpr]
        intro r hr
        simp only [bne_iff_ne, ne_eq, decide_eq_true_eq]
        intro hra
        exact hanr (hra ▸ hr)
      have hsub2 : List.Sublist rest (db.acmplsvpnassociations.erase a) := by
        rw [herase, ← hrest_self]
        exact (List.sublist_of_cons_sublist hsub).filter _
      have hnd2 : ((db.acmplsvpnassociations.erase a).map (fun r => r.id)).Nodup :=
        hnd.sublist ((List.erase_sublist a _).map _)
      obtain ⟨db', n, heq, hfil, hfr, hnx⟩ :=
        ih { db with acmplsvpnassociations := db.acmplsvpnassociations.erase a } hsub2 hnd2
      refine ⟨db', n + 1, ?_, ?_, ?_, hnx⟩
      · simp only [deleteStaleAcVpnAssocs, if_neg hin, hres, heq]
      · rw [hfil]
        show (db.acmplsvpnassociations.erase a).filter _ = _
        rw [herase, List.filter_filter]
        apply List.filter_congr
        intro r _
        by_cases hra : r = a
        · subst hra
          have hl : (decide (r ∈ rest → r.attachmentcircuit_id ∈ d) && (r != r)) = false := by
            simp
          rw [hl]
          symm
          apply decide_eq_false
          intro himp
          exact hin (himp (List.mem_cons_self r rest))
        · have hne : (r != a) = true := by
            simp [bne_iff_ne, hra]
          rw [hne, Bool.and_true]
          apply decide_eq_decide.mpr
          constructor
          · intro himp hmem
            rcases List.mem_cons.mp hmem with h | h
            · exact absurd h hra
            · exact himp h
          · intro himp hmem
            exact himp (List.mem_cons_of_mem a hmem)
      · exact eqExceptAcVpnAssocs_trans (⟨rfl, rfl, rfl, rfl, rfl⟩ :
          EqExceptAcVpnAssocs db { db with
            acmplsvpnassociations := db.acmplsvpnassociations.erase a }) hfr

/-- A successful pair lookup witnesses the association. -/
lemma acVpnAssocExists_of_find {db : Db} {v k : String} {r0 : ACMPLSVPNAssociation}
    (hf : db.acmplsvpnassociations.find? (fun r =>
      r.mplsvpn_id == v && r.attachmentcircuit_id == k) = some r0) :
    acVpnAssocExists db v k := by
  have hmem := List.mem_of_find?_eq_some hf
  have hp := List.find?_some hf
  simp only [Bool.and_eq_true, beq_iff_eq] at hp
  exact ⟨r0, hmem, hp.1, hp.2⟩

/-- Whatever the insert pass produced, it only appended new ACTIVE rows of the
parent for keys of the desired list, and afterwards a key has an association
for the parent exactly when it had one before or is desired. -/
lemma insertMissingAcVpn_char :
    ∀ (ks : List String) (db : Db) (v : String) (db' : Db) (n : Nat),
      insertMissingAcVpnAssocs db v ks = .ok (db', n) →
      (∃ extra, db'.acmplsvpnassociations = db.acmplsvpnassociations ++ extra ∧
        ∀ r ∈ extra, r.mplsvpn_id = v ∧ r.status = ACTIVE ∧
          r.attachmentcircuit_id ∈ ks) ∧
      (∀ k, acVpnAssocExists db' v k ↔ acVpnAssocExists db v k ∨ k ∈ ks) ∧
      EqExceptAcVpnAssocs db db' := by
  intro ks
  induction ks with
  | nil =>
    intro db v db' n h
    simp only [insertMissingAcVpnAssocs, Except.ok.injEq, Prod.mk.injEq] at h
    obtain ⟨hdb, -⟩ := h
    subst hdb
    refine ⟨⟨[], by simp, by simp⟩, fun k => by simp, eqExceptAcVpnAssocs_refl db⟩
  | cons k rest ih =>
    intro db v db' n h
    rcases hf : db.acmplsvpnassociations.find? (fun r =>
        r.mplsvpn_id == v && r.attachmentcircuit_id == k) with - | r0
    · simp only [insertMissingAcVpnAssocs, hf] at h
      rcases hcond : (db.mplsvpns.any (fun r => r.id == v) &&
          db.attachmentcircuits.any (fun r => r.id == k)) with - | -
      · rw [hcond] at h
        simp at h
      · rw [hcond, if_pos rfl] at h
        rcases hrec : insertMissingAcVpnAssocs
            { db with
              acmplsvpnassociations := db.acmplsvpnassociations ++
                [{ id := generate_uuid db.nextUuid
                   status := ACTIVE
                   mplsvpn_id := v
                   attachmentcircuit_id := k }]
              nextUuid := db.nextUuid + 1 } v rest with e | p
        · rw [hrec] at h
          simp at h
        · obtain ⟨db2, n0⟩ := p
          rw [hrec] at h
          simp only [Except.ok.injEq, Prod.mk.injEq] at h
          obtain ⟨hdb, -⟩ := h
          subst hdb
          obtain ⟨⟨extra, hext, hprops⟩, hiff, hfr⟩ := ih _ v _ _ hrec
          constructor
          · refine ⟨{ id := generate_uuid db.nextUuid
                      status := ACTIVE
                      mplsvpn_id := v
                      attachmentcircuit_id := k } :: extra, ?_, ?_⟩
            · rw [hext]
              simp
            · intro r hr
              rcases List.mem_cons.mp hr with hre | hre
              · rw [hre]
                exact ⟨rfl, rfl, List.mem_cons_self k rest⟩
              · obtain ⟨h1, h2, h3⟩ := hprops r hre
                exact ⟨h1, h2, List.mem_cons_of_mem k h3⟩
          constructor
          · intro k'
            have hmid : ∀ k'', acVpnAssocExists { db with
                acmplsvpnassociations := db.acmplsvpnassociations ++
                  [{ id := generate_uuid db.nextUuid
                     status := ACTIVE
                     mplsvpn_id := v
                     attachmentcircuit_id := k }]
                nextUuid := db.nextUuid + 1 } v k'' ↔
                acVpnAssocExists db v k'' ∨ k'' = k := by
              intro k''
              constructor
              · rintro ⟨r, hr, hv, hk⟩
                rcases List.mem_append.mp hr with hrl | hrl
                · exact Or.inl ⟨r, hrl, hv, hk⟩
                · right
                  rw [List.mem_singleton] at hrl
                  rw [← hk, hrl]
              · rintro (⟨r, hr, hv, hk⟩ | hk)
                · exact ⟨r, List.mem_append.mpr (Or.inl hr), hv, hk⟩
                · exact ⟨_, List.mem_append.mpr (Or.inr (List.mem_singleton_self _)),
                    rfl, hk.symm⟩
            have h1 := hiff k'
            rw [hmid k'] at h1
            rw [h1, List.mem_cons]
            tauto
          · exact eqExceptAcVpnAssocs_trans (⟨rfl, rfl, rfl, rfl, rfl⟩ :
              EqExceptAcVpnAssocs db _) hfr
    · simp only [insertMissingAcVpnAssocs, hf] at h
      obtain ⟨⟨extra, hext, hprops⟩, hiff, hfr⟩ := ih db v db' n h
      have hk0 : acVpnAssocExists db v k := acVpnAssocExists_of_find hf
      refine ⟨⟨extra, hext, ?_⟩, ?_, hfr⟩
      · intro r hr
        obtain ⟨h1, h2, h3⟩ := hprops r hr
        exact ⟨h1, h2, List.mem_cons_of_mem k h3⟩
      · intro k'
        have h1 := hiff k'
        rw [h1, List.mem_cons]
        constructor
        · tauto
        · rintro (ha | hk' | hr)
          · exact Or.inl ha
          · left
            rw [hk']
            exact hk0
          · exact Or.inr hr

/-- The insert pass succeeds whenever the parent row exists and every desired
key references an existing attachment circuit. -/
lemma insertMissingAcVpn_ok :
    ∀ (ks : List String) (db : Db) (v : String),
      db.mplsvpns.any (fun r => r.id == v) = true →
      (∀ k ∈ ks, db.attachmentcircuits.any (fun r => r.id == k) = true) →
      ∃ db' n, insertMissingAcVpnAssocs db v ks = .ok (db', n) := by
  intro ks
  induction ks with
  | nil => intro db v _ _; exact ⟨db, 0, rfl⟩
  | cons k rest ih =>
    intro db v hv hks
    rcases hf : db.acmplsvpnassociations.find? (fun r =>
        r.mplsvpn_id == v && r.attachmentcircuit_id == k) with - | r0
    · have hcond : (db.mplsvpns.any (fun r => r.id == v) &&
          db.attachmentcircuits.any (fun r => r.id == k)) = true := by
        rw [hv, hks k (List.mem_cons_self k rest)]
        rfl
      obtain ⟨db', n, hrec⟩ := ih
        { db with
          acmplsvpnassociations := db.acmplsvpnassociations ++
            [{ id := generate_uuid db.nextUuid
               status := ACTIVE
               mplsvpn_id := v
               attachmentcircuit_id := k }]
          nextUuid := db.nextUuid + 1 } v hv
        (fun k' hk' => hks k' (List.mem_cons_of_mem k hk'))
      refine ⟨db', n + 1, ?_⟩
      simp only [insertMissingAcVpnAssocs, hf, hcond, if_true, hrec]
    · obtain ⟨db', n, hrec⟩ := ih db v hv
        (fun k' hk' => hks k' (List.mem_cons_of_mem k hk'))
      refine ⟨db', n, ?_⟩
      simp only [insertMissingAcVpnAssocs, hf]
      exact hrec

/-! ### Characterization of the full mplsvpn-side reconciler -/

lemma getResource_ok_iff {db : Db} {m : Model} {vId : String} {r : m.Row} :
    getResource db m vId = .ok r ↔ getById db m vId = some r := by
  unfold getResource
  cases h : getById db m vId <;> simp

/-- The delete pass applied to the association rows of one parent: it keeps
exactly the rows that do not belong to the parent or whose child is desired. -/
lemma deleteStaleAcVpn_full (db : Db) (v : String) (d : List String)
    (hnd : (db.acmplsvpnassociations.map (fun r => r.id)).Nodup) :
    ∃ db' n, deleteStaleAcVpnAssocs db d
        (db.acmplsvpnassociations.filter (fun r => r.mplsvpn_id == v)) = .ok (db', n) ∧
      db'.acmplsvpnassociations = db.acmplsvpnassociations.filter
        (fun r => decide (r.mplsvpn_id = v → r.attachmentcircuit_id ∈ d)) ∧
      EqExceptAcVpnAssocs db db' ∧ db'.nextUuid = db.nextUuid := by
  obtain ⟨db', n, heq, hfil, hfr, hnx⟩ :=
    deleteStaleAcVpn_spec d (db.acmplsvpnassociations.filter (fun r => r.mplsvpn_id == v))
      db (List.filter_sublist _) hnd
  refine ⟨db', n, heq, ?_, hfr, hnx⟩
  rw [hfil]
  apply List.filter_congr
  intro r hr
  apply decide_eq_decide.mpr
  constructor
  · intro himp hv
    exact himp (List.mem_filter.mpr ⟨hr, beq_iff_eq.mpr hv⟩)
  · intro himp hmem
    exact himp (beq_iff_eq.mp (List.mem_filter.mp hmem).2)

/-- On a well-keyed table, with the parent present and every desired key
referencing an existing attachment circuit, the reconciler succeeds; afterwards
the parent has an association exactly for the desired keys, and every original
association of the parent with a desired child survives as the same row. -/
lemma modifyAcVpn_ok (db : Db) (v : String) (d : List String) (pr : MPLSVPN)
    (hnd : (db.acmplsvpnassociations.map (fun r => r.id)).Nodup)
    (hpar : db.mplsvpns.find? (fun r => r.id == v) = some pr)
    (hfk : ∀ k ∈ d, db.attachmentcircuits.any (fun r => r.id == k) = true) :
    ∃ db' nI nD, modify_mplsvpn_ac_associations db v d = .ok (db', nI, nD) ∧
      (∀ k, acVpnAssocExists db' v k ↔ k ∈ d) ∧
      (∀ r ∈ db.acmplsvpnassociations, r.mplsvpn_id = v → r.attachmentcircuit_id ∈ d →
        r ∈ db'.acmplsvpnassociations) ∧
      EqExceptAcVpnAssocs db db' := by
  obtain ⟨db1, nD, hdel, hfil, hfr1, -⟩ := deleteStaleAcVpn_full db v d hnd
  have hm1 : db1.mplsvpns = db.mplsvpns := hfr1.1
  have hres : getResource db1 .mplsvpn v = .ok pr := by
    rw [getResource_ok_iff, getById_mplsvpn, hm1]
    exact hpar
  have hvany : db1.mplsvpns.any (fun r => r.id == v) = true := by
    rw [hm1]
    exact any_key_of_find (fun r : MPLSVPN => r.id) hpar
  have hfk1 : ∀ k ∈ d, db1.attachmentcircuits.any (fun r => r.id == k) = true := by
    rw [hfr1.2.1]
    exact hfk
  obtain ⟨db2, nI, hins⟩ := insertMissingAcVpn_ok d db1 v hvany hfk1
  obtain ⟨⟨extra, hext, hprops⟩, hiff, hfr2⟩ := insertMissingAcVpn_char d db1 v db2 nI hins
  have hmid : ∀ k, acVpnAssocExists db1 v k ↔ (acVpnAssocExists db v k ∧ k ∈ d) := by
    intro k
    unfold acVpnAssocExists
    rw [hfil]
    constructor
    · rintro ⟨r, hr, hv, hk⟩
      obtain ⟨hrl, hP⟩ := List.mem_filter.mp hr
      refine ⟨⟨r, hrl, hv, hk⟩, ?_⟩
      rw [← hk]
      exact (of_decide_eq_true hP) hv
    · rintro ⟨⟨r, hr, hv, hk⟩, hkd⟩
      refine ⟨r, List.mem_filter.mpr ⟨hr, decide_eq_true ?_⟩, hv, hk⟩
      intro _
      rw [hk]
      exact hkd
  refine ⟨db2, nI, nD, ?_, ?_, ?_, eqExceptAcVpnAssocs_trans hfr1 hfr2⟩
  · simp only [modify_mplsvpn_ac_associations, hdel, hres, hins]
  · intro k
    rw [hiff k, hmid k]
    constructor
    · rintro (⟨-, hkd⟩ | hkd) <;> exact hkd
    · exact fun hkd => Or.inr hkd
  · intro r hr hv hkd
    have hr1 : r ∈ db1.acmplsvpnassociations := by
      rw [hfil]
      refine List.mem_filter.mpr ⟨hr, decide_eq_true ?_⟩
      intro _
      exact hkd
    rw [hext]
    exact List.mem_append.mpr (Or.inl hr1)

/-- Mirror of deleteStaleAcVpn_spec for the circuit-network association table. -/
lemma deleteStaleAcNet_spec (d : List String) :
    ∀ (pending : List ACNetworkAssociation) (db : Db),
      List.Sublist pending db.acnetworkassociations →
      (db.acnetworkassociations.map (fun r => r.id)).Nodup →
      ∃ db' n, deleteStaleAcNetAssocs db d pending = .ok (db', n) ∧
        db'.acnetworkassociations = db.acnetworkassociations.filter
          (fun r => decide (r ∈ pending → r.network_id ∈ d)) ∧
        EqExceptAcNetAssocs db db' ∧ db'.nextUuid = db.nextUuid := by
  intro pending
  induction pending with
  | nil =>
    intro db _ _
    refine ⟨db, 0, rfl, ?_, eqExceptAcNetAssocs_refl db, rfl⟩
    rw [List.filter_eq_self.mpr]
    intro r _
    simp
  | cons a rest ih =>
    intro db hsub hnd
    by_cases hin : a.network_id ∈ d
    · obtain ⟨db', n, heq, hfil, hfr, hnx⟩ :=
        ih db (List.sublist_of_cons_sublist hsub) hnd
      refine ⟨db', n, ?_, ?_, hfr, hnx⟩
      · simp only [deleteStaleAcNetAssocs, if_pos hin]
        exact heq
      · rw [hfil]
        apply List.filter_congr
        intro r _
        apply decide_eq_decide.mpr
        constructor
        · intro himp hmem
          rcases List.mem_cons.mp hmem with h | h
          · rw [h]; exact hin
          · exact himp h
        · intro himp hmem
          exact himp (List.mem_cons_of_mem a hmem)
    · have ha_l : a ∈ db.acnetworkassociations := hsub.subset (List.mem_cons_self a rest)
      have hlnd : db.acnetworkassociations.Nodup := hnd.of_map _
      have hfind : db.acnetworkassociations.find? (fun r => r.id == a.id) = some a :=
        find_key_of_nodup (fun r => r.id) hnd ha_l
      have hres : getResource db .acnetworkAssociation a.id = .ok a := by
        simp only [getResource, getById_acnetwork, hfind]
      have hacons : (a :: rest).Nodup := hlnd.sublist hsub
      have hanr : a ∉ rest := (List.nodup_cons.mp hacons).1
      have herase : db.acnetworkassociations.erase a =
          db.acnetworkassociations.filter (· != a) := hlnd.erase_eq_filter a
      have hrest_self : rest.filter (· != a) = rest := by
        rw [List.filter_eq_self.mpr]
        intro r hr
        simp only [bne_iff_ne, ne_eq, decide_eq_true_eq]
        intro hra
        exact hanr (hra ▸ hr)
      have hsub2 : List.Sublist rest (db.acnetworkassociations.erase a) := by
        rw [herase, ← hrest_self]
        exact (List.sublist_of_cons_sublist hsub).filter _
      have hnd2 : ((db.acnetworkassociations.erase a).map (fun r => r.id)).Nodup :=
        hnd.sublist ((List.erase_sublist a _).map _)
      obtain ⟨db', n, heq, hfil, hfr, hnx⟩ :=
        ih { db with acnetworkassociations := db.acnetworkassociations.erase a } hsub2 hnd2
      refine ⟨db', n + 1, ?_, ?_, ?_, hnx⟩
      · simp only [deleteStaleAcNetAssocs, if_neg hin, hres, heq]
      · rw [hfil]
        show (db.acnetworkassociations.erase a).filter _ = _
        rw [herase, List.filter_filter]
        apply List.filter_congr
        intro r _
        by_cases hra : r = a
        · subst hra
          have hl : (decide (r ∈ rest → r.network_id ∈ d) && (r != r)) = false := by
            simp
          rw [hl]
          symm
          apply decide_eq_false
          intro himp
          exact hin (himp (List.mem_cons_self r rest))
        · have hne : (r != a) = true := by
            simp [bne_iff_ne, hra]
          rw [hne, Bool.and_true]
          apply decide_eq_decide.mpr
          constructor
          · intro himp hmem
            rcases List.mem_cons.mp hmem with h | h
            · exact absurd h hra
            · exact himp h
          · intro himp hmem
            exact himp (List.mem_cons_of_mem a hmem)
      · exact eqExceptAcNetAssocs_trans (⟨rfl, rfl, rfl, rfl, rfl⟩ :
          EqExceptAcNetAssocs db { db with
            acnetworkassociations := db.acnetworkassociations.erase a }) hfr

/-- A successful pair lookup witnesses the association. -/
lemma acNetAssocExists_of_find {db : Db} {a k : String} {r0 : ACNetworkAssociation}
    (hf : db.acnetworkassociations.find? (fun r =>
      r.attachmentcircuit_id == a && r.network_id == k) = some r0) :
    acNetAssocExists db a k := by
  have hmem := List.mem_of_find?_eq_some hf
  have hp := List.find?_some hf
  simp only [Bool.and_eq_true, beq_iff_eq] at hp
  exact ⟨r0, hmem, hp.1, hp.2⟩

/-- Mirror of insertMissingAcVpn_char for the circuit-network table. -/
lemma insertMissingAcNet_char :
    ∀ (ks : List String) (db : Db) (a : String) (db' : Db) (n : Nat),
      insertMissingAcNetAssocs db a ks = .ok (db', n) →
      (∃ extra, db'.acnetworkassociations = db.acnetworkassociations ++ extra ∧
        ∀ r ∈ extra, r.attachmentcircuit_id = a ∧ r.status = ACTIVE ∧
          r.network_id ∈ ks) ∧
      (∀ k, acNetAssocExists db' a k ↔ acNetAssocExists db a k ∨ k ∈ ks) ∧
      EqExceptAcNetAssocs db db' := by
  intro ks
  induction ks with
  | nil =>
    intro db a db' n h
    simp only [insertMissingAcNetAssocs, Except.ok.injEq, Prod.mk.injEq] at h
    obtain ⟨hdb, -⟩ := h
    subst hdb
    refine ⟨⟨[], by simp, by simp⟩, fun k => by simp, eqExceptAcNetAssocs_refl db⟩
  | cons k rest ih =>
    intro db a db' n h
    rcases hf : db.acnetworkassociations.find? (fun r =>
        r.attachmentcircuit_id == a && r.network_id == k) with - | r0
    · simp only [insertMissingAcNetAssocs, hf] at h
      rcases hcond : (db.attachmentcircuits.any (fun r => r.id == a) &&
          db.networks.contains k) with - | -
      · rw [hcond] at h
        simp at h
      · rw [hcond, if_pos rfl] at h
        rcases hrec : insertMissingAcNetAssocs
            { db with
              acnetworkassociations := db.acnetworkassociations ++
                [{ id := generate_uuid db.nextUuid
                   status := ACTIVE
                   attachmentcircuit_id := a
                   network_id := k }]
              nextUuid := db.nextUuid + 1 } a rest with e | p
        · rw [hrec] at h
          simp at h
        · obtain ⟨db2, n0⟩ := p
          rw [hrec] at h
          simp only [Except.ok.injEq, Prod.mk.injEq] at h
          obtain ⟨hdb, -⟩ := h
          subst hdb
          obtain ⟨⟨extra, hext, hprops⟩, hiff, hfr⟩ := ih _ a _ _ hrec
          constructor
          · refine ⟨{ id := generate_uuid db.nextUuid
                      status := ACTIVE
                      attachmentcircuit_id := a
                      network_id := k } :: extra, ?_, ?_⟩
            · rw [hext]
              simp
            · intro r hr
              rcases List.mem_cons.mp hr with hre | hre
              · rw [hre]
                exact ⟨rfl, rfl, List.mem_cons_self k rest⟩
              · obtain ⟨h1, h2, h3⟩ := hprops r hre
                exact ⟨h1, h2, List.mem_cons_of_mem k h3⟩
          constructor
          · intro k'
            have hmid : ∀ k'', acNetAssocExists { db with
                acnetworkassociations := db.acnetworkassociations ++
                  [{ id := generate_uuid db.nextUuid
                     status := ACTIVE
                     attachmentcircuit_id := a
                     network_id := k }]
                nextUuid := db.nextUuid + 1 } a k'' ↔
                acNetAssocExists db a k'' ∨ k'' = k := by
              intro k''
              constructor
              · rintro ⟨r, hr, ha, hk⟩
                rcases List.mem_append.mp hr with hrl | hrl
                · exact Or.inl ⟨r, hrl, ha, hk⟩
                · right
                  rw [List.mem_singleton] at hrl
                  rw [← hk, hrl]
              · rintro (⟨r, hr, ha, hk⟩ | hk)
                · exact ⟨r, List.mem_append.mpr (Or.inl hr), ha, hk⟩
                · exact ⟨_, List.mem_append.mpr (Or.inr (List.mem_singleton_self _)),
                    rfl, hk.symm⟩
            have h1 := hiff k'
            rw [hmid k'] at h1
            rw [h1, List.mem_cons]
            tauto
          · exact eqExceptAcNetAssocs_trans (⟨rfl, rfl, rfl, rfl, rfl⟩ :
              EqExceptAcNetAssocs db _) hfr
    · simp only [insertMissingAcNetAssocs, hf] at h
      obtain ⟨⟨extra, hext, hprops⟩, hiff, hfr⟩ := ih db a db' n h
      have hk0 : acNetAssocExists db a k := acNetAssocExists_of_find hf
      refine ⟨⟨extra, hext, ?_⟩, ?_, hfr⟩
      · intro r hr
        obtain ⟨h1, h2, h3⟩ := hprops r hr
        exact ⟨h1, h2, List.mem_cons_of_mem k h3⟩
      · intro k'
        have h1 := hiff k'
        rw [h1, List.mem_cons]
        constructor
        · tauto
        · rintro (ha | hk' | hr)
          · exact Or.inl ha
          · left
            rw [hk']
            exact hk0
          · exact Or.inr hr

/-- The insert pass succeeds whenever the circuit row exists and every desired
key references an existing network. -/
lemma insertMissingAcNet_ok :
    ∀ (ks : List String) (db : Db) (a : String),
      db.attachmentcircuits.any (fun r => r.id == a) = true →
      (∀ k ∈ ks, db.networks.contains k = true) →
      ∃ db' n, insertMissingAcNetAssocs db a ks = .ok (db', n) := by
  intro ks
  induction ks with
  | nil => intro db a _ _; exact ⟨db, 0, rfl⟩
  | cons k rest ih =>
    intro db a ha hks
    rcases hf : db.acnetworkassociations.find? (fun r =>
        r.attachmentcircuit_id == a && r.network_id == k) with - | r0
    · have hcond : (db.attachmentcircuits.any (fun r => r.id == a) &&
          db.networks.contains k) = true := by
        rw [ha, hks k (List.mem_cons_self k rest)]
        rfl
      obtain ⟨db', n, hrec⟩ := ih
        { db with
          acnetworkassociations := db.acnetworkassociations ++
            [{ id := generate_uuid db.nextUuid
               status := ACTIVE
               attachmentcircuit_id := a
               network_id := k }]
          nextUuid := db.nextUuid + 1 } a ha
        (fun k' hk' => hks k' (List.mem_cons_of_mem k hk'))
      refine ⟨db', n + 1, ?_⟩
      simp only [insertMissingAcNetAssocs, hf, hcond, if_true, hrec]
    · obtain ⟨db', n, hrec⟩ := ih db a ha
        (fun k' hk' => hks k' (List.mem_cons_of_mem k hk'))
      refine ⟨db', n, ?_⟩
      simp only [insertMissingAcNetAssocs, hf]
      exact hrec

/-! ### Characterization of the full circuit-side reconciler -/

/-- Mirror of deleteStaleAcVpn_full. -/
lemma deleteStaleAcNet_full (db : Db) (a : String) (d : List String)
    (hnd : (db.acnetworkassociations.map (fun r => r.id)).Nodup) :
    ∃ db' n, deleteStaleAcNetAssocs db d
        (db.acnetworkassociations.filter
          (fun r => r.attachmentcircuit_id == a)) = .ok (db', n) ∧
      db'.acnetworkassociations = db.acnetworkassociations.filter
        (fun r => decide (r.attachmentcircuit_id = a → r.network_id ∈ d)) ∧
      EqExceptAcNetAssocs db db' ∧ db'.nextUuid = db.nextUuid := by
  obtain ⟨db', n, heq, hfil, hfr, hnx⟩ :=
    deleteStaleAcNet_spec d (db.acnetworkassociations.filter
      (fun r => r.attachmentcircuit_id == a)) db (List.filter_sublist _) hnd
  refine ⟨db', n, heq, ?_, hfr, hnx⟩
  rw [hfil]
  apply List.filter_congr
  intro r hr
  apply decide_eq_decide.mpr
  constructor
  · intro himp hv
    exact himp (List.mem_filter.mpr ⟨hr, beq_iff_eq.mpr hv⟩)
  · intro himp hmem
    exact himp (beq_iff_eq.mp (List.mem_filter.mp hmem).2)

/-- Mirror of modifyAcVpn_ok: the circuit-side reconciler succeeds and produces
exactly the desired membership, preserving rows whose key was kept. -/
lemma modifyAcNet_ok (db : Db) (a : String) (d : List String) (pr : AttachmentCircuit)
    (hnd : (db.acnetworkassociations.map (fun r => r.id)).Nodup)
    (hpar : db.attachmentcircuits.find? (fun r => r.id == a) = some pr)
    (hfk : ∀ k ∈ d, db.networks.contains k = true) :
    ∃ db' nI nD, modify_ac_networks_associations db a d = .ok (db', nI, nD) ∧
      (∀ k, acNetAssocExists db' a k ↔ k ∈ d) ∧
      (∀ r ∈ db.acnetworkassociations, r.attachmentcircuit_id = a → r.network_id ∈ d →
        r ∈ db'.acnetworkassociations) ∧
      EqExceptAcNetAssocs db db' := by
  obtain ⟨db1, nD, hdel, hfil, hfr1, -⟩ := deleteStaleAcNet_full db a d hnd
  have hm1 : db1.attachmentcircuits = db.attachmentcircuits := hfr1.2.1
  have hres : getResource db1 .attachmentCircuit a = .ok pr := by
    rw [getResource_ok_iff, getById_attachmentCircuit, hm1]
    exact hpar
  have hvany : db1.attachmentcircuits.any (fun r => r.id == a) = true := by
    rw [hm1]
    exact any_key_of_find (fun r : AttachmentCircuit => r.id) hpar
  have hfk1 : ∀ k ∈ d, db1.networks.contains k = true := by
    rw [hfr1.2.2.2.2]
    exact hfk
  obtain ⟨db2, nI, hins⟩ := insertMissingAcNet_ok d db1 a hvany hfk1
  obtain ⟨⟨extra, hext, hprops⟩, hiff, hfr2⟩ := insertMissingAcNet_char d db1 a db2 nI hins
  have hmid : ∀ k, acNetAssocExists db1 a k ↔ (acNetAssocExists db a k ∧ k ∈ d) := by
    intro k
    unfold acNetAssocExists
    rw [hfil]
    constructor
    · rintro ⟨r, hr, hv, hk⟩
      obtain ⟨hrl, hP⟩ := List.mem_filter.mp hr
      refine ⟨⟨r, hrl, hv, hk⟩, ?_⟩
      rw [← hk]
      exact (of_decide_eq_true hP) hv
    · rintro ⟨⟨r, hr, hv, hk⟩, hkd⟩
      refine ⟨r, List.mem_filter.mpr ⟨hr, decide_eq_true ?_⟩, hv, hk⟩
      intro _
      rw [hk]
      exact hkd
  refine ⟨db2, nI, nD, ?_, ?_, ?_, eqExceptAcNetAssocs_trans hfr1 hfr2⟩
  · simp only [modify_ac_networks_associations, hdel, hres, hins]
  · intro k
    rw [hiff k, hmid k]
    constructor
    · rintro (⟨-, hkd⟩ | hkd) <;> exact hkd
    · exact fun hkd => Or.inr hkd
  · intro r hr hv hkd
    have hr1 : r ∈ db1.acnetworkassociations := by
      rw [hfil]
      refine List.mem_filter.mpr ⟨hr, decide_eq_true ?_⟩
      intro _
      exact hkd
    rw [hext]
    exact List.mem_append.mpr (Or.inl hr1)

lemma deleteStaleAcVpn_frame (d : List String) :
    ∀ (pending : List ACMPLSVPNAssociation) (db db' : Db) (n : Nat),
      deleteStaleAcVpnAssocs db d pending = .ok (db', n) →
      EqExceptAcVpnAssocs db db' := by
  intro pending
  induction pending with
  | nil =>
    intro db db' n h
    simp only [deleteStaleAcVpnAssocs, Except.ok.injEq, Prod.mk.injEq] at h
    rw [← h.1]
    exact eqExceptAcVpnAssocs_refl db
  | cons a rest ih =>
    intro db db' n h
    by_cases hin : a.attachmentcircuit_id ∈ d
    · simp only [deleteStaleAcVpnAssocs, if_pos hin] at h
      exact ih db db' n h
    · simp only [deleteStaleAcVpnAssocs, if_neg hin] at h
      rcases hres : getResource db .acmplsvpnAssociation a.id with e | r
      · rw [hres] at h
        exact Except.noConfusion h
      · rcases hrec : deleteStaleAcVpnAssocs
            { db with acmplsvpnassociations := db.acmplsvpnassociations.erase r }
            d rest with e | p
        · simp only [hres, hrec] at h
          exact Except.noConfusion h
        · obtain ⟨db2, n0⟩ := p
          simp only [hres, hrec, Except.ok.injEq, Prod.mk.injEq] at h
          rw [← h.1]
          exact eqExceptAcVpnAssocs_trans (⟨rfl, rfl, rfl, rfl, rfl⟩ :
            EqExceptAcVpnAssocs db
              { db with acmplsvpnassociations := db.acmplsvpnassociations.erase r })
            (ih { db with acmplsvpnassociations := db.acmplsvpnassociations.erase r }
              db2 n0 hrec)

lemma deleteStaleAcNet_frame (d : List String) :
    ∀ (pending : List ACNetworkAssociation) (db db' : Db) (n : Nat),
      deleteStaleAcNetAssocs db d pending = .ok (db', n) →
      EqExceptAcNetAssocs db db' := by
  intro pending
  induction pending with
  | nil =>
    intro db db' n h
    simp only [deleteStaleAcNetAssocs, Except.ok.injEq, Prod.mk.injEq] at h
    rw [← h.1]
    exact eqExceptAcNetAssocs_refl db
  | cons a rest ih =>
    intro db db' n h
    by_cases hin : a.network_id ∈ d
    · simp only [deleteStaleAcNetAssocs, if_pos hin] at h
      exact ih db db' n h
    · simp only [deleteStaleAcNetAssocs, if_neg hin] at h
      rcases hres : getResource db .acnetworkAssociation a.id with e | r
      · rw [hres] at h
        exact Except.noConfusion h
      · rcases hrec : deleteStaleAcNetAssocs
            { db with acnetworkassociations := db.acnetworkassociations.erase r }
            d rest with e | p
        · simp only [hres, hrec] at h
          exact Except.noConfusion h
        · obtain ⟨db2, n0⟩ := p
          simp only [hres, hrec, Except.ok.injEq, Prod.mk.injEq] at h
          rw [← h.1]
          exact eqExceptAcNetAssocs_trans (⟨rfl, rfl, rfl, rfl, rfl⟩ :
            EqExceptAcNetAssocs db
              { db with acnetworkassociations := db.acnetworkassociations.erase r })
            (ih { db with acnetworkassociations := db.acnetworkassociations.erase r }
              db2 n0 hrec)

/-- A successful run of the mplsvpn-side reconciler only edits its own
association table (and the uuid counter). -/
lemma modifyAcVpn_frame {db db' : Db} {v : String} {d : List String} {nI nD : Nat}
    (h : modify_mplsvpn_ac_associations db v d = .ok (db', nI, nD)) :
    EqExceptAcVpnAssocs db db' := by
  rcases hdel : deleteStaleAcVpnAssocs db d
      (db.acmplsvpnassociations.filter (fun r => r.mplsvpn_id == v)) with e | p
  · simp only [modify_mplsvpn_ac_associations, hdel] at h
    exact Except.noConfusion h
  · obtain ⟨db1, n1⟩ := p
    rcases hg : getResource db1 .mplsvpn v with e | pr
    · simp only [modify_mplsvpn_ac_associations, hdel, hg] at h
      exact Except.noConfusion h
    · rcases hins : insertMissingAcVpnAssocs db1 v d with e | p2
      · simp only [modify_mplsvpn_ac_associations, hdel, hg, hins] at h
        exact Except.noConfusion h
      · obtain ⟨db2, n2⟩ := p2
        simp only [modify_mplsvpn_ac_associations, hdel, hg, hins, Except.ok.injEq,
          Prod.mk.injEq] at h
        rw [← h.1]
        exact eqExceptAcVpnAssocs_trans (deleteStaleAcVpn_frame d _ db db1 n1 hdel)
          (insertMissingAcVpn_char d db1 v db2 n2 hins).2.2

/-- A successful run of the circuit-side reconciler only edits its own
association table (and the uuid counter). -/
lemma modifyAcNet_frame {db db' : Db} {a : String} {d : List String} {nI nD : Nat}
    (h : modify_ac_networks_associations db a d = .ok (db', nI, nD)) :
    EqExceptAcNetAssocs db db' := by
  rcases hdel : deleteStaleAcNetAssocs db d
      (db.acnetworkassociations.filter (fun r => r.attachmentcircuit_id == a)) with e | p
  · simp only [modify_ac_networks_associations, hdel] at h
    exact Except.noConfusion h
  · obtain ⟨db1, n1⟩ := p
    rcases hg : getResource db1 .attachmentCircuit a with e | pr
    · simp only [modify_ac_networks_associations, hdel, hg] at h
      exact Except.noConfusion h
    · rcases hins : insertMissingAcNetAssocs db1 a d with e | p2
      · simp only [modify_ac_networks_associations, hdel, hg, hins] at h
        exact Except.noConfusion h
      · obtain ⟨db2, n2⟩ := p2
        simp only [modify_ac_networks_associations, hdel, hg, hins, Except.ok.injEq,
          Prod.mk.injEq] at h
        rw [← h.1]
        exact eqExceptAcNetAssocs_trans (deleteStaleAcNet_frame d _ db db1 n1 hdel)
          (insertMissingAcNet_char d db1 a db2 n2 hins).2.2

/-! ### Shape of a successful create -/

lemma pickStr_override (dflt s : String) (h : s ≠ "") : pickStr dflt (some s) = s := by
  simp only [pickStr]
  rw [if_neg]
  intro hc
  exact h (beq_iff_eq.mp hc)

lemma pickNat_override (dflt m : Nat) (h : m ≠ 0) : pickNat dflt (some m) = m := by
  simp only [pickNat]
  rw [if_neg]
  intro hc
  exact h (by simpa using hc)

/-- What a successful create_mplsvpn did: the tenant had no row, one new row
with the defaulted-or-overridden tunnel options and status PENDING_CREATE was
appended, and the returned dict is its projection over the final state. -/
lemma create_mplsvpn_ok_shape {db : Db} {p : MplsvpnPayload} {db' : Db}
    {dict : MplsvpnDict} (h : create_mplsvpn db p = .ok (db', dict)) :
    db.mplsvpns.find? (fun r => r.tenant_id == p.tenant_id) = none ∧
    ∃ row : MPLSVPN,
      row.id = generate_uuid db.nextUuid ∧
      row.tenant_id = p.tenant_id ∧
      row.name = p.name ∧
      row.status = PENDING_CREATE ∧
      row.vpn_id = p.vpn_id ∧
      row.tunnel_type = (match p.tunnel_options with
        | some topts => pickStr "fullmesh" topts.tunnel_type
        | none => "fullmesh") ∧
      row.tunnel_backup = (match p.tunnel_options with
        | some topts => pickStr "frr" topts.tunnel_backup
        | none => "frr") ∧
      row.qos = (match p.tunnel_options with
        | some topts => pickStr "Gold" topts.qos
        | none => "Gold") ∧
      row.bandwidth = (match p.tunnel_options with
        | some topts => pickNat 10 topts.bandwidth
        | none => 10) ∧
      db'.mplsvpns = db.mplsvpns ++ [row] ∧
      row ∈ db'.mplsvpns ∧
      dict = _make_mplsvpn_dict db' row := by
  simp only [create_mplsvpn] at h
  split at h
  · exact Except.noConfusion h
  · next hfnone =>
    split at h
    · exact Except.noConfusion h
    · next db2 nIns nDel heq =>
      simp only [Except.ok.injEq, Prod.mk.injEq] at h
      obtain ⟨hdb', hdict⟩ := h
      subst hdb'
      have hmpl : db2.mplsvpns = db.mplsvpns ++
          [{ id := generate_uuid db.nextUuid
             tenant_id := p.tenant_id
             name := p.name
             status := PENDING_CREATE
             tunnel_type := match p.tunnel_options with
               | some topts => pickStr "fullmesh" topts.tunnel_type
               | none => "fullmesh"
             tunnel_backup := match p.tunnel_options with
               | some topts => pickStr "frr" topts.tunnel_backup
               | none => "frr"
             qos := match p.tunnel_options with
               | some topts => pickStr "Gold" topts.qos
               | none => "Gold"
             bandwidth := match p.tunnel_options with
               | some topts => pickNat 10 topts.bandwidth
               | none => 10
             vpn_id := p.vpn_id }] :=
        (modifyAcVpn_frame heq).1
      refine ⟨hfnone,
        { id := generate_uuid db.nextUuid
          tenant_id := p.tenant_id
          name := p.name
          status := PENDING_CREATE
          tunnel_type := match p.tunnel_options with
            | some topts => pickStr "fullmesh" topts.tunnel_type
            | none => "fullmesh"
          tunnel_backup := match p.tunnel_options with
            | some topts => pickStr "frr" topts.tunnel_backup
            | none => "frr"
          qos := match p.tunnel_options with
            | some topts => pickStr "Gold" topts.qos
            | none => "Gold"
          bandwidth := match p.tunnel_options with
            | some topts => pickNat 10 topts.bandwidth
            | none => 10
          vpn_id := p.vpn_id },
        rfl, rfl, rfl, rfl, rfl, rfl, rfl, rfl, rfl, hmpl, ?_, ?_⟩
      · rw [hmpl]
        exact List.mem_append_right _ (List.mem_singleton_self _)
      · exact hdict.symm

/-- What a successful create_attachment_circuit did. -/
lemma create_attachment_circuit_ok_shape {db : Db} {p : AttachmentCircuitPayload}
    {db' : Db} {dict : AttachmentCircuitDict}
    (h : create_attachment_circuit db p = .ok (db', dict)) :
    db.attachmentcircuits.find? (fun r => r.tenant_id == p.tenant_id) = none ∧
    ∃ row : AttachmentCircuit,
      row.id = generate_uuid db.nextUuid ∧
      row.tenant_id = p.tenant_id ∧
      row.name = p.name ∧
      row.network_type = p.network_type ∧
      row.provider_edge_id = p.provider_edge_id ∧
      db'.attachmentcircuits = db.attachmentcircuits ++ [row] ∧
      row ∈ db'.attachmentcircuits ∧
      dict = _make_attachmentcircuit_dict db' row := by
  simp only [create_attachment_circuit] at h
  split at h
  · exact Except.noConfusion h
  · next hfnone =>
    split at h
    · exact Except.noConfusion h
    · next db2 nIns nDel heq =>
      simp only [Except.ok.injEq, Prod.mk.injEq] at h
      obtain ⟨hdb', hdict⟩ := h
      subst hdb'
      have hacs : db2.attachmentcircuits = db.attachmentcircuits ++
          [{ id := generate_uuid db.nextUuid
             tenant_id := p.tenant_id
             name := p.name
             network_type := p.network_type
             provider_edge_id := p.provider_edge_id }] :=
        (modifyAcNet_frame heq).2.1
      refine ⟨hfnone,
        { id := generate_uuid db.nextUuid
          tenant_id := p.tenant_id
          name := p.name
          network_type := p.network_type
          provider_edge_id := p.provider_edge_id },
        rfl, rfl, rfl, rfl, rfl, hacs, ?_, ?_⟩
      · rw [hacs]
        exact List.mem_append_right _ (List.mem_singleton_self _)
      · exact hdict.symm

/-! ### Concrete demonstration states -/

/-- A mplsvpn row with id v, used by concrete instantiations. -/
def vpnRowV : MPLSVPN :=
  { id := "v", tenant_id := "T", name := "vpn", status := "ACTIVE",
    tunnel_type := "fullmesh", tunnel_backup := "frr", qos := "Gold",
    bandwidth := 10, vpn_id := "100" }

/-- An attachment circuit row with id a. -/
def acRowA : AttachmentCircuit :=
  { id := "a", tenant_id := "T", name := "ac-a", network_type := "L2",
    provider_edge_id := "pe" }

/-- An attachment circuit row with id b. -/
def acRowB : AttachmentCircuit :=
  { id := "b", tenant_id := "U", name := "ac-b", network_type := "L2",
    provider_edge_id := "pe" }

/-- The empty database. -/
def emptyDb : Db :=
  { mplsvpns := [], attachmentcircuits := [], provideredges := [],
    acmplsvpnassociations := [], acnetworkassociations := [], networks := [],
    nextUuid := 0 }

/-- A database holding the vpn v, circuits a and b, and one association
linking v to b. -/
def demoDb1 : Db :=
  { mplsvpns := [vpnRowV], attachmentcircuits := [acRowA, acRowB],
    provideredges := [],
    acmplsvpnassociations :=
      [{ id := "x1", status := "ACTIVE", mplsvpn_id := "v",
         attachmentcircuit_id := "b" }],
    acnetworkassociations := [], networks := [], nextUuid := 0 }

/-- A database holding only the vpn v: any desired attachment circuit key
fails the foreign-key check on insert. -/
def c1CexDb : Db :=
  { mplsvpns := [vpnRowV], attachmentcircuits := [], provideredges := [],
    acmplsvpnassociations := [], acnetworkassociations := [], networks := [],
    nextUuid := 0 }

/-! ### Claim theorems -/

/-- C1 (amended): on a database whose association row ids are duplicate-free,
if the parent exists and every desired key references an existing child row
(the foreign-key constraint the insert relies on), then each reconciler
succeeds, the set of child keys associated to the parent afterwards equals the
deduplicated desired list, and every association row of the parent whose child
key was already present and is desired survives as the very same row (same id
and status, neither deleted nor reinserted). -/
theorem c1_reconcile_exact_membership :
    (∀ (db : Db) (v : String) (d : List String) (pr : MPLSVPN),
      (db.acmplsvpnassociations.map (fun r => r.id)).Nodup →
      db.mplsvpns.find? (fun r => r.id == v) = some pr →
      (∀ k ∈ d, db.attachmentcircuits.any (fun r => r.id == k) = true) →
      ∃ db' nI nD, modify_mplsvpn_ac_associations db v d = .ok (db', nI, nD) ∧
        (∀ k, k ∈ acVpnChildKeys db' v ↔ k ∈ d) ∧
        (∀ r ∈ db.acmplsvpnassociations, r.mplsvpn_id = v →
          r.attachmentcircuit_id ∈ d → r ∈ db'.acmplsvpnassociations)) ∧
    (∀ (db : Db) (a : String) (d : List String) (pr : AttachmentCircuit),
      (db.acnetworkassociations.map (fun r => r.id)).Nodup →
      db.attachmentcircuits.find? (fun r => r.id == a) = some pr →
      (∀ k ∈ d, db.networks.contains k = true) →
      ∃ db' nI nD, modify_ac_networks_associations db a d = .ok (db', nI, nD) ∧
        (∀ k, k ∈ acNetChildKeys db' a ↔ k ∈ d) ∧
        (∀ r ∈ db.acnetworkassociations, r.attachmentcircuit_id = a →
          r.network_id ∈ d → r ∈ db'.acnetworkassociations)) := by
  constructor
  · intro db v d pr hnd hpar hfk
    obtain ⟨db', nI, nD, heq, hiff, hpres, -⟩ := modifyAcVpn_ok db v d pr hnd hpar hfk
    exact ⟨db', nI, nD, heq, fun k => (mem_acVpnChildKeys).trans (hiff k), hpres⟩
  · intro db a d pr hnd hpar hfk
    obtain ⟨db', nI, nD, heq, hiff, hpres, -⟩ := modifyAcNet_ok db a d pr hnd hpar hfk
    exact ⟨db', nI, nD, heq, fun k => (mem_acNetChildKeys).trans (hiff k), hpres⟩

/-- C1 counterexample to the claim as stated: on c1CexDb the parent v exists,
yet reconciling towards the desired list [a] does not leave the association
set equal to [a]: the insert hits the foreign-key failure (circuit a does not
exist), the transaction rolls back, and the association set stays empty. -/
theorem c1_counterexample :
    (getById c1CexDb .mplsvpn "v").isSome = true ∧
    modify_mplsvpn_ac_associations c1CexDb "v" ["a"] =
      .error .referentialIntegrityError ∧
    runReconcileMplsvpnAc c1CexDb "v" ["a"] =
      (c1CexDb, some .referentialIntegrityError) ∧
    "a" ∉ acVpnChildKeys (runReconcileMplsvpnAc c1CexDb "v" ["a"]).1 "v" := by
  refine ⟨rfl, rfl, rfl, ?_⟩
  decide

/-- C3: any error raised inside a reconciliation leaves the externally visible
database exactly as it was before the call (the transaction scope rolls the
writes back); in particular a reconciliation on a missing parent fails with the
typed not-found error and changes nothing, even though its delete pass ran
first. -/
theorem c3_reconcile_rollback :
    (∀ (db : Db) (v : String) (d : List String) (e : Err),
      modify_mplsvpn_ac_associations db v d = .error e →
      runReconcileMplsvpnAc db v d = (db, some e)) ∧
    (∀ (db : Db) (v : String) (d : List String),
      (db.acmplsvpnassociations.map (fun r => r.id)).Nodup →
      db.mplsvpns.find? (fun r => r.id == v) = none →
      runReconcileMplsvpnAc db v d = (db, some (.mplsvpnNotFound v))) ∧
    (∀ (db : Db) (a : String) (d : List String) (e : Err),
      modify_ac_networks_associations db a d = .error e →
      runReconcileAcNet db a d = (db, some e)) ∧
    (∀ (db : Db) (a : String) (d : List String),
      (db.acnetworkassociations.map (fun r => r.id)).Nodup →
      db.attachmentcircuits.find? (fun r => r.id == a) = none →
      runReconcileAcNet db a d = (db, some (.attachmentCircuitNotFound a))) := by
  refine ⟨?_, ?_, ?_, ?_⟩
  · intro db v d e h
    unfold runReconcileMplsvpnAc
    rw [h]
  · intro db v d hnd hnone
    obtain ⟨db1, n, hdel, -, hfr, -⟩ := deleteStaleAcVpn_full db v d hnd
    have hgb : getById db1 .mplsvpn v = none := by
      rw [getById_mplsvpn, hfr.1]
      exact hnone
    have hg : getResource db1 .mplsvpn v = .error (.mplsvpnNotFound v) := by
      unfold getResource
      rw [hgb]
      rfl
    have hmod : modify_mplsvpn_ac_associations db v d = .error (.mplsvpnNotFound v) := by
      simp only [modify_mplsvpn_ac_associations, hdel, hg]
    unfold runReconcileMplsvpnAc
    rw [hmod]
  · intro db a d e h
    unfold runReconcileAcNet
    rw [h]
  · intro db a d hnd hnone
    obtain ⟨db1, n, hdel, -, hfr, -⟩ := deleteStaleAcNet_full db a d hnd
    have hgb : getById db1 .attachmentCircuit a = none := by
      rw [getById_attachmentCircuit, hfr.2.1]
      exact hnone
    have hg : getResource db1 .attachmentCircuit a =
        .error (.attachmentCircuitNotFound a) := by
      unfold getResource
      rw [hgb]
      rfl
    have hmod : modify_ac_networks_associations db a d =
        .error (.attachmentCircuitNotFound a) := by
      simp only [modify_ac_networks_associations, hdel, hg]
    unfold runReconcileAcNet
    rw [hmod]

/-- C1 witness: reconciling demoDb1 (one stale association to b) towards [a]
succeeds and leaves exactly the child key a associated. -/
theorem c1_reconcile_exact_membership_witness :
    ∃ db' nI nD,
      modify_mplsvpn_ac_associations demoDb1 "v" ["a"] = .ok (db', nI, nD) ∧
      (∀ k, k ∈ acVpnChildKeys db' "v" ↔ k ∈ ["a"]) ∧
      (∀ r ∈ demoDb1.acmplsvpnassociations, r.mplsvpn_id = "v" →
        r.attachmentcircuit_id ∈ ["a"] → r ∈ db'.acmplsvpnassociations) :=
  c1_reconcile_exact_membership.1 demoDb1 "v" ["a"] vpnRowV (by decide) (by decide)
    (by decide)

/-- C3 witness: a reconciliation naming a missing mplsvpn rolls back to the
untouched empty database and surfaces MPLSVPNNotFound. -/
theorem c3_reconcile_rollback_witness :
    runReconcileMplsvpnAc emptyDb "missing" [] =
      (emptyDb, some (.mplsvpnNotFound "missing")) :=
  c3_reconcile_rollback.2.1 emptyDb "missing" [] (by decide) rfl

/-- C4: when a mplsvpn (resp. attachment circuit) already exists for the
tenant, create fails with the Duplicate error carrying the pre-existing id and
the tenant id and the database is unchanged (nothing inserted); consequently
creation preserves the at-most-one-row-per-tenant invariant for both tables. -/
theorem c4_tenant_singleton :
    (∀ (db : Db) (p : MplsvpnPayload) (row : MPLSVPN),
      db.mplsvpns.find? (fun r => r.tenant_id == p.tenant_id) = some row →
      runCreateMplsvpn db p =
        (db, some (.duplicateMPLSVPNForTenant row.id p.tenant_id))) ∧
    (∀ (db : Db) (p : AttachmentCircuitPayload) (row : AttachmentCircuit),
      db.attachmentcircuits.find? (fun r => r.tenant_id == p.tenant_id) = some row →
      runCreateAttachmentCircuit db p =
        (db, some (.duplicateAttachmentCircuitForTenant row.id p.tenant_id))) ∧
    (∀ (db : Db) (p : MplsvpnPayload) (db' : Db) (dict : MplsvpnDict),
      (db.mplsvpns.map (fun r => r.tenant_id)).Nodup →
      create_mplsvpn db p = .ok (db', dict) →
      (db'.mplsvpns.map (fun r => r.tenant_id)).Nodup) ∧
    (∀ (db : Db) (p : AttachmentCircuitPayload) (db' : Db)
        (dict : AttachmentCircuitDict),
      (db.attachmentcircuits.map (fun r => r.tenant_id)).Nodup →
      create_attachment_circuit db p = .ok (db', dict) →
      (db'.attachmentcircuits.map (fun r => r.tenant_id)).Nodup) := by
  refine ⟨?_, ?_, ?_, ?_⟩
  · intro db p row hf
    have hc : create_mplsvpn db p =
        .error (.duplicateMPLSVPNForTenant row.id p.tenant_id) := by
      simp only [create_mplsvpn, hf]
    unfold runCreateMplsvpn
    rw [hc]
  · intro db p row hf
    have hc : create_attachment_circuit db p =
        .error (.duplicateAttachmentCircuitForTenant row.id p.tenant_id) := by
      simp only [create_attachment_circuit, hf]
    unfold runCreateAttachmentCircuit
    rw [hc]
  · intro db p db' dict hnd hok
    obtain ⟨hfnone, row, -, hrowt, -, -, -, -, -, -, -, hmpl, -, -⟩ :=
      create_mplsvpn_ok_shape hok
    rw [hmpl, List.map_append, List.nodup_append]
    refine ⟨hnd, by simp, ?_⟩
    intro t htl htr
    simp only [List.map_cons, List.map_nil, List.mem_singleton] at htr
    obtain ⟨r', hr', hrt⟩ := List.mem_map.mp htl
    have hne := List.find?_eq_none.mp hfnone r' hr'
    apply hne
    rw [beq_iff_eq, hrt, htr, hrowt]
  · intro db p db' dict hnd hok
    obtain ⟨hfnone, row, -, hrowt, -, -, -, hacs, -, -⟩ :=
      create_attachment_circuit_ok_shape hok
    rw [hacs, List.map_append, List.nodup_append]
    refine ⟨hnd, by simp, ?_⟩
    intro t htl htr
    simp only [List.map_cons, List.map_nil, List.mem_singleton] at htr
    obtain ⟨r', hr', hrt⟩ := List.mem_map.mp htl
    have hne := List.find?_eq_none.mp hfnone r' hr'
    apply hne
    rw [beq_iff_eq, hrt, htr, hrowt]

/-- C4 witness: creating a second vpn for tenant T on demoDb1 fails with the
Duplicate error naming the existing vpn v, leaving the state unchanged. -/
theorem c4_tenant_singleton_witness :
    runCreateMplsvpn demoDb1
      { tenant_id := "T", name := "second", vpn_id := "101",
        tunnel_options := none, attachment_circuits := [] } =
      (demoDb1, some (.duplicateMPLSVPNForTenant "v" "T")) :=
  c4_tenant_singleton.1 demoDb1
    { tenant_id := "T", name := "second", vpn_id := "101",
      tunnel_options := none, attachment_circuits := [] } vpnRowV rfl

/-- C6: a successful create_mplsvpn inserts its new row with status
PENDING_CREATE and with each tunnel option field equal to its default
(fullmesh, frr, Gold, 10) unless that field is present in the payload with a
non-empty value, in which case the supplied value is taken, field by field. -/
theorem c6_tunnel_option_defaults :
    ∀ (db : Db) (p : MplsvpnPayload) (db' : Db) (dict : MplsvpnDict),
      create_mplsvpn db p = .ok (db', dict) →
      ∃ row ∈ db'.mplsvpns, dict = _make_mplsvpn_dict db' row ∧
        row.status = PENDING_CREATE ∧
        (p.tunnel_options = none →
          row.tunnel_type = "fullmesh" ∧ row.tunnel_backup = "frr" ∧
          row.qos = "Gold" ∧ row.bandwidth = 10) ∧
        (∀ t, p.tunnel_options = some t →
          ((t.tunnel_type = none ∨ t.tunnel_type = some "") →
            row.tunnel_type = "fullmesh") ∧
          (∀ s, t.tunnel_type = some s → s ≠ "" → row.tunnel_type = s) ∧
          ((t.tunnel_backup = none ∨ t.tunnel_backup = some "") →
            row.tunnel_backup = "frr") ∧
          (∀ s, t.tunnel_backup = some s → s ≠ "" → row.tunnel_backup = s) ∧
          ((t.qos = none ∨ t.qos = some "") → row.qos = "Gold") ∧
          (∀ s, t.qos = some s → s ≠ "" → row.qos = s) ∧
          ((t.bandwidth = none ∨ t.bandwidth = some 0) → row.bandwidth = 10) ∧
          (∀ m, t.bandwidth = some m → m ≠ 0 → row.bandwidth = m)) := by
  intro db p db' dict hok
  obtain ⟨-, row, -, -, -, hst, -, htt, htb, hq, hbw, -, hmem, hdict⟩ :=
    create_mplsvpn_ok_shape hok
  refine ⟨row, hmem, hdict, hst, ?_, ?_⟩
  · intro hnone
    rw [htt, htb, hq, hbw, hnone]
    exact ⟨rfl, rfl, rfl, rfl⟩
  · intro t hsome
    simp only [hsome] at htt htb hq hbw
    refine ⟨?_, ?_, ?_, ?_, ?_, ?_, ?_, ?_⟩
    · rintro (hn | hn) <;> rw [htt, hn] <;> rfl
    · intro s hs hne
      rw [htt, hs]
      exact pickStr_override "fullmesh" s hne
    · rintro (hn | hn) <;> rw [htb, hn] <;> rfl
    · intro s hs hne
      rw [htb, hs]
      exact pickStr_override "frr" s hne
    · rintro (hn | hn) <;> rw [hq, hn] <;> rfl
    · intro s hs hne
      rw [hq, hs]
      exact pickStr_override "Gold" s hne
    · rintro (hn | hn) <;> rw [hbw, hn] <;> rfl
    · intro m hm hne
      rw [hbw, hm]
      exact pickNat_override 10 m hne

/-- The payload used by the C6 witness: only qos supplied, as Silver. -/
def c6Payload : MplsvpnPayload :=
  { tenant_id := "T", name := "v1", vpn_id := "100",
    tunnel_options := some { qos := some "Silver" }, attachment_circuits := [] }

/-- The row created for c6Payload. -/
def c6Row : MPLSVPN :=
  { id := "uuid-0", tenant_id := "T", name := "v1",
    status := "PENDING_CREATE", tunnel_type := "fullmesh",
    tunnel_backup := "frr", qos := "Silver", bandwidth := 10,
    vpn_id := "100" }

/-- The state after creating c6Payload on the empty database. -/
def c6DbAfter : Db :=
  { mplsvpns := [c6Row],
    attachmentcircuits := [], provideredges := [], acmplsvpnassociations := [],
    acnetworkassociations := [], networks := [], nextUuid := 1 }

/-- The tunnel options projection of the C6 witness creation. -/
def c6TunnelDict : TunnelOptionsDict :=
  { tunnel_type := "fullmesh", tunnel_backup := "frr",
    qos := "Silver", bandwidth := 10 }

/-- The projection returned for the C6 witness creation. -/
def c6Dict : MplsvpnDict :=
  { id := "uuid-0", tenant_id := "T", name := "v1", vpn_id := "100",
    tunnel_options := c6TunnelDict,
    status := "PENDING_CREATE", attachment_circuits := [] }

/-- C6 witness: supplying only qos Silver yields qos Silver with every other
tunnel option defaulted and status PENDING_CREATE. -/
theorem c6_tunnel_option_defaults_witness :
    ∃ row ∈ c6DbAfter.mplsvpns, c6Dict = _make_mplsvpn_dict c6DbAfter row ∧
      row.status = PENDING_CREATE ∧
      (c6Payload.tunnel_options = none →
        row.tunnel_type = "fullmesh" ∧ row.tunnel_backup = "frr" ∧
        row.qos = "Gold" ∧ row.bandwidth = 10) ∧
      (∀ t, c6Payload.tunnel_options = some t →
        ((t.tunnel_type = none ∨ t.tunnel_type = some "") →
          row.tunnel_type = "fullmesh") ∧
        (∀ s, t.tunnel_type = some s → s ≠ "" → row.tunnel_type = s) ∧
        ((t.tunnel_backup = none ∨ t.tunnel_backup = some "") →
          row.tunnel_backup = "frr") ∧
        (∀ s, t.tunnel_backup = some s → s ≠ "" → row.tunnel_backup = s) ∧
        ((t.qos = none ∨ t.qos = some "") → row.qos = "Gold") ∧
        (∀ s, t.qos = some s → s ≠ "" → row.qos = s) ∧
        ((t.bandwidth = none ∨ t.bandwidth = some 0) → row.bandwidth = 10) ∧
        (∀ m, t.bandwidth = some m → m ≠ 0 → row.bandwidth = m)) :=
  c6_tunnel_option_defaults emptyDb c6Payload c6DbAfter c6Dict rfl

/-- C5: _get_resource surfaces exactly the entity-specific NotFound error for
each of the three entity models (never the generic no-result error), and when
the row exists it returns that row unchanged. -/
theorem c5_typed_not_found :
    (∀ (db : Db) (i : String), getById db .mplsvpn i = none →
      getResource db .mplsvpn i = .error (.mplsvpnNotFound i)) ∧
    (∀ (db : Db) (i : String) (r : MPLSVPN), getById db .mplsvpn i = some r →
      getResource db .mplsvpn i = .ok r) ∧
    (∀ (db : Db) (i : String) (e : Err), getResource db .mplsvpn i = .error e →
      e = .mplsvpnNotFound i) ∧
    (∀ (db : Db) (i : String), getById db .attachmentCircuit i = none →
      getResource db .attachmentCircuit i = .error (.attachmentCircuitNotFound i)) ∧
    (∀ (db : Db) (i : String) (r : AttachmentCircuit),
      getById db .attachmentCircuit i = some r →
      getResource db .attachmentCircuit i = .ok r) ∧
    (∀ (db : Db) (i : String) (e : Err),
      getResource db .attachmentCircuit i = .error e →
      e = .attachmentCircuitNotFound i) ∧
    (∀ (db : Db) (i : String), getById db .providerEdge i = none →
      getResource db .providerEdge i = .error (.providerEdgeNotFound i)) ∧
    (∀ (db : Db) (i : String) (r : ProviderEdge),
      getById db .providerEdge i = some r →
      getResource db .providerEdge i = .ok r) ∧
    (∀ (db : Db) (i : String) (e : Err),
      getResource db .providerEdge i = .error e →
      e = .providerEdgeNotFound i) := by
  refine ⟨?_, ?_, ?_, ?_, ?_, ?_, ?_, ?_, ?_⟩
  · intro db i h
    unfold getResource
    rw [h]
    rfl
  · intro db i r h
    unfold getResource
    rw [h]
  · intro db i e h
    unfold getResource at h
    rcases hg : getById db .mplsvpn i with - | r
    · rw [hg] at h
      injection h with h2
      exact h2.symm
    · rw [hg] at h
      exact Except.noConfusion h
  · intro db i h
    unfold getResource
    rw [h]
    rfl
  · intro db i r h
    unfold getResource
    rw [h]
  · intro db i e h
    unfold getResource at h
    rcases hg : getById db .attachmentCircuit i with - | r
    · rw [hg] at h
      injection h with h2
      exact h2.symm
    · rw [hg] at h
      exact Except.noConfusion h
  · intro db i h
    unfold getResource
    rw [h]
    rfl
  · intro db i r h
    unfold getResource
    rw [h]
  · intro db i e h
    unfold getResource at h
    rcases hg : getById db .providerEdge i with - | r
    · rw [hg] at h
      injection h with h2
      exact h2.symm
    · rw [hg] at h
      exact Except.noConfusion h

/-- C5 witness: on demoDb1 a missing id yields the typed errors and the
present rows come back unchanged. -/
theorem c5_typed_not_found_witness :
    getResource demoDb1 .mplsvpn "nope" = .error (.mplsvpnNotFound "nope") ∧
    getResource demoDb1 .mplsvpn "v" = .ok vpnRowV ∧
    getResource demoDb1 .attachmentCircuit "nope" =
      .error (.attachmentCircuitNotFound "nope") ∧
    getResource demoDb1 .attachmentCircuit "a" = .ok acRowA ∧
    getResource demoDb1 .providerEdge "nope" =
      .error (.providerEdgeNotFound "nope") :=
  ⟨c5_typed_not_found.1 demoDb1 "nope" rfl,
   c5_typed_not_found.2.1 demoDb1 "v" vpnRowV rfl,
   c5_typed_not_found.2.2.2.1 demoDb1 "nope" rfl,
   c5_typed_not_found.2.2.2.2.1 demoDb1 "a" acRowA rfl,
   c5_typed_not_found.2.2.2.2.2.2.1 demoDb1 "nope" rfl⟩

/-- A reconciliation on a parent id that owns no association row and has no
parent row fails with the typed not-found error and rolls back. -/
lemma runReconcileMplsvpnAc_no_parent (db' : Db) (v : String) (d : List String)
    (hpend : db'.acmplsvpnassociations.filter (fun r => r.mplsvpn_id == v) = [])
    (hfind : db'.mplsvpns.find? (fun r => r.id == v) = none) :
    runReconcileMplsvpnAc db' v d = (db', some (.mplsvpnNotFound v)) := by
  have hdel0 : deleteStaleAcVpnAssocs db' d
      (db'.acmplsvpnassociations.filter (fun r => r.mplsvpn_id == v)) =
      .ok (db', 0) := by
    rw [hpend]
    rfl
  have hg : getResource db' .mplsvpn v = .error (.mplsvpnNotFound v) := by
    unfold getResource
    rw [getById_mplsvpn, hfind]
    rfl
  have hmod : modify_mplsvpn_ac_associations db' v d =
      .error (.mplsvpnNotFound v) := by
    simp only [modify_mplsvpn_ac_associations, hdel0, hg]
  unfold runReconcileMplsvpnAc
  rw [hmod]

/-- Mirror of runReconcileMplsvpnAc_no_parent for the circuit side. -/
lemma runReconcileAcNet_no_parent (db' : Db) (a : String) (d : List String)
    (hpend : db'.acnetworkassociations.filter
      (fun r => r.attachmentcircuit_id == a) = [])
    (hfind : db'.attachmentcircuits.find? (fun r => r.id == a) = none) :
    runReconcileAcNet db' a d = (db', some (.attachmentCircuitNotFound a)) := by
  have hdel0 : deleteStaleAcNetAssocs db' d
      (db'.acnetworkassociations.filter (fun r => r.attachmentcircuit_id == a)) =
      .ok (db', 0) := by
    rw [hpend]
    rfl
  have hg : getResource db' .attachmentCircuit a =
      .error (.attachmentCircuitNotFound a) := by
    unfold getResource
    rw [getById_attachmentCircuit, hfind]
    rfl
  have hmod : modify_ac_networks_associations db' a d =
      .error (.attachmentCircuitNotFound a) := by
    simp only [modify_ac_networks_associations, hdel0, hg]
  unfold runReconcileAcNet
  rw [hmod]

/-- C7 (amended): deleting an existing mplsvpn removes its row and every
association row of that vpn in the same transaction, touching no other table,
and a subsequent reconciliation on the deleted id fails with MPLSVPNNotFound
and changes nothing; delete_attachment_circuit cascades the circuit-network
association rows the same way provided no AC-VPN association row references
the circuit - the case in which its own DELETE is what the foreign key of
lines 59-61 rejects, there being no cascade from the circuit side. -/
theorem c7_cascade_delete :
    (∀ (db : Db) (v : String) (row : MPLSVPN),
      (db.mplsvpns.map (fun r => r.id)).Nodup →
      db.mplsvpns.find? (fun r => r.id == v) = some row →
      ∃ db', delete_mplsvpn db v = .ok db' ∧
        db'.mplsvpns = db.mplsvpns.erase row ∧
        db'.acmplsvpnassociations = db.acmplsvpnassociations.filter
          (fun r => !(r.mplsvpn_id == v)) ∧
        db'.attachmentcircuits = db.attachmentcircuits ∧
        db'.acnetworkassociations = db.acnetworkassociations ∧
        (∀ d, runReconcileMplsvpnAc db' v d =
          (db', some (.mplsvpnNotFound v)))) ∧
    (∀ (db : Db) (a : String) (row : AttachmentCircuit),
      (db.attachmentcircuits.map (fun r => r.id)).Nodup →
      db.attachmentcircuits.find? (fun r => r.id == a) = some row →
      db.acmplsvpnassociations.any (fun r => r.attachmentcircuit_id == a) = false →
      ∃ db', delete_attachment_circuit db a = .ok db' ∧
        db'.attachmentcircuits = db.attachmentcircuits.erase row ∧
        db'.acnetworkassociations = db.acnetworkassociations.filter
          (fun r => !(r.attachmentcircuit_id == a)) ∧
        db'.mplsvpns = db.mplsvpns ∧
        db'.acmplsvpnassociations = db.acmplsvpnassociations ∧
        (∀ d, runReconcileAcNet db' a d =
          (db', some (.attachmentCircuitNotFound a)))) := by
  constructor
  · intro db v row hnd hfind
    have hp := List.find?_some hfind
    have hrid : row.id = v := beq_iff_eq.mp hp
    have hmem : row ∈ db.mplsvpns := List.mem_of_find?_eq_some hfind
    have hres : getResource db .mplsvpn v = .ok row := by
      rw [getResource_ok_iff, getById_mplsvpn]
      exact hfind
    refine ⟨{ db with
        mplsvpns := db.mplsvpns.erase row,
        acmplsvpnassociations := db.acmplsvpnassociations.filter
          (fun r => !(r.mplsvpn_id == row.id)) }, ?_, rfl, ?_, rfl, rfl, ?_⟩
    · simp only [delete_mplsvpn, hres]
    · rw [hrid]
    · intro d
      apply runReconcileMplsvpnAc_no_parent
      · show (db.acmplsvpnassociations.filter
            (fun r => !(r.mplsvpn_id == row.id))).filter
            (fun r => r.mplsvpn_id == v) = []
        rw [List.filter_filter]
        rw [List.filter_eq_nil_iff]
        intro r _
        rw [hrid]
        simp
      · show (db.mplsvpns.erase row).find? (fun r => r.id == v) = none
        exact find_key_erase_eq_none (fun r : MPLSVPN => r.id) hnd hmem hrid
  · intro db a row hnd hfind hanone
    have hp := List.find?_some hfind
    have hrid : row.id = a := beq_iff_eq.mp hp
    have hmem : row ∈ db.attachmentcircuits := List.mem_of_find?_eq_some hfind
    have hres : getResource db .attachmentCircuit a = .ok row := by
      rw [getResource_ok_iff, getById_attachmentCircuit]
      exact hfind
    have hnoref : db.acmplsvpnassociations.any
        (fun r => r.attachmentcircuit_id == row.id) = false := by
      rw [hrid]
      exact hanone
    refine ⟨{ db with
        attachmentcircuits := db.attachmentcircuits.erase row,
        acnetworkassociations := db.acnetworkassociations.filter
          (fun r => !(r.attachmentcircuit_id == row.id)) }, ?_, rfl, ?_, rfl, rfl, ?_⟩
    · simp only [delete_attachment_circuit, hres, hnoref, Bool.false_eq_true, if_false]
    · rw [hrid]
    · intro d
      apply runReconcileAcNet_no_parent
      · show (db.acnetworkassociations.filter
            (fun r => !(r.attachmentcircuit_id == row.id))).filter
            (fun r => r.attachmentcircuit_id == a) = []
        rw [List.filter_filter]
        rw [List.filter_eq_nil_iff]
        intro r _
        rw [hrid]
        simp
      · show (db.attachmentcircuits.erase row).find? (fun r => r.id == a) = none
        exact find_key_erase_eq_none (fun r : AttachmentCircuit => r.id) hnd hmem hrid

/-- A vpn with two associated circuits, for the C7 witness. -/
def c7Db : Db :=
  { mplsvpns := [vpnRowV], attachmentcircuits := [acRowA, acRowB],
    provideredges := [],
    acmplsvpnassociations :=
      [{ id := "x1", status := "ACTIVE", mplsvpn_id := "v",
         attachmentcircuit_id := "a" },
       { id := "x2", status := "ACTIVE", mplsvpn_id := "v",
         attachmentcircuit_id := "b" }],
    acnetworkassociations := [], networks := [], nextUuid := 0 }

/-- A circuit a with two attached networks and no AC-VPN reference, for the
circuit half of the C7 witness. -/
def c7AcDb : Db :=
  { mplsvpns := [], attachmentcircuits := [acRowA], provideredges := [],
    acmplsvpnassociations := [],
    acnetworkassociations :=
      [{ id := "y1", status := "ACTIVE", attachmentcircuit_id := "a",
         network_id := "n1" },
       { id := "y2", status := "ACTIVE", attachmentcircuit_id := "a",
         network_id := "n2" }],
    networks := ["n1", "n2"], nextUuid := 0 }

/-- A circuit a still referenced by an AC-VPN association row, for the C7
counterexample. -/
def c7CexDb : Db :=
  { mplsvpns := [vpnRowV], attachmentcircuits := [acRowA], provideredges := [],
    acmplsvpnassociations :=
      [{ id := "x1", status := "ACTIVE", mplsvpn_id := "v",
         attachmentcircuit_id := "a" }],
    acnetworkassociations := [], networks := [], nextUuid := 0 }

/-- C7 counterexample to the claim as stated: circuit a exists in c7CexDb, yet
delete_attachment_circuit does not remove it and cascade its circuit-network
rows - an AC-VPN association still references the circuit, so the DELETE
violates the foreign key of lines 59-61, the transaction fails with the
referential-integrity error and rolls back, leaving the state untouched. -/
theorem c7_counterexample :
    (getById c7CexDb .attachmentCircuit "a").isSome = true ∧
    delete_attachment_circuit c7CexDb "a" = .error .referentialIntegrityError ∧
    runDeleteAttachmentCircuit c7CexDb "a" =
      (c7CexDb, some .referentialIntegrityError) :=
  ⟨rfl, rfl, rfl⟩

/-- C7 witness: deleting vpn v from c7Db removes the row and both association
rows and reconciling the deleted id fails with MPLSVPNNotFound; deleting the
unreferenced circuit a from c7AcDb removes the circuit and both of its
circuit-network rows the same way. -/
theorem c7_cascade_delete_witness :
    (∃ db', delete_mplsvpn c7Db "v" = .ok db' ∧
      db'.mplsvpns = c7Db.mplsvpns.erase vpnRowV ∧
      db'.acmplsvpnassociations = c7Db.acmplsvpnassociations.filter
        (fun r => !(r.mplsvpn_id == "v")) ∧
      db'.attachmentcircuits = c7Db.attachmentcircuits ∧
      db'.acnetworkassociations = c7Db.acnetworkassociations ∧
      (∀ d, runReconcileMplsvpnAc db' "v" d =
        (db', some (.mplsvpnNotFound "v")))) ∧
    (∃ db', delete_attachment_circuit c7AcDb "a" = .ok db' ∧
      db'.attachmentcircuits = c7AcDb.attachmentcircuits.erase acRowA ∧
      db'.acnetworkassociations = c7AcDb.acnetworkassociations.filter
        (fun r => !(r.attachmentcircuit_id == "a")) ∧
      db'.mplsvpns = c7AcDb.mplsvpns ∧
      db'.acmplsvpnassociations = c7AcDb.acmplsvpnassociations ∧
      (∀ d, runReconcileAcNet db' "a" d =
        (db', some (.attachmentCircuitNotFound "a")))) :=
  ⟨c7_cascade_delete.1 c7Db "v" vpnRowV (by decide) rfl,
   c7_cascade_delete.2 c7AcDb "a" acRowA (by decide) rfl rfl⟩

/-- Replacing the first row matching an id decomposes the list around that
row, the prefix holding no match. -/
lemma updateFirstMplsvpn_decomp (vId : String) (f : MPLSVPN → MPLSVPN) :
    ∀ (l : List MPLSVPN) (row : MPLSVPN),
      l.find? (fun r => r.id == vId) = some row →
      ∃ pre post, l = pre ++ row :: post ∧
        updateFirstMplsvpn vId f l = pre ++ f row :: post ∧
        ∀ r ∈ pre, (r.id == vId) = false := by
  intro l
  induction l with
  | nil => intro row h; exact absurd h (by simp)
  | cons b t ih =>
    intro row h
    by_cases hb : (b.id == vId) = true
    · simp only [List.find?_cons, hb, Option.some.injEq] at h
      subst h
      refine ⟨[], t, by simp, ?_, by simp⟩
      simp [updateFirstMplsvpn, hb]
    · have hb' : (b.id == vId) = false := by simpa using hb
      simp only [List.find?_cons, hb'] at h
      obtain ⟨pre, post, hl, hupd, hpre⟩ := ih row h
      refine ⟨b :: pre, post, ?_, ?_, ?_⟩
      · rw [List.cons_append, hl]
      · simp only [updateFirstMplsvpn, hb', Bool.false_eq_true, if_false,
          List.cons_append, hupd]
      · intro r hr
        rcases List.mem_cons.mp hr with hrb | hrp
        · rw [hrb]
          exact hb'
        · exact hpre r hrp

/-- C8: update_mplsvpn_status_and_name overwrites exactly the name and status
columns of the addressed row (all other columns of the row, the whole set of
association rows and every other table are unchanged) and returns the
projection of the updated row over the updated state. -/
theorem c8_status_name_update_frame :
    ∀ (db : Db) (p : MplsvpnStatusNamePayload) (row : MPLSVPN),
      db.mplsvpns.find? (fun r => r.id == p.id) = some row →
      ∃ db' dict, update_mplsvpn_status_and_name db p = .ok (db', dict) ∧
        (∃ pre post, db.mplsvpns = pre ++ row :: post ∧
          db'.mplsvpns = pre ++
            ({ row with name := p.name, status := p.status }) :: post) ∧
        db'.acmplsvpnassociations = db.acmplsvpnassociations ∧
        db'.attachmentcircuits = db.attachmentcircuits ∧
        db'.provideredges = db.provideredges ∧
        db'.acnetworkassociations = db.acnetworkassociations ∧
        db'.networks = db.networks ∧
        db'.nextUuid = db.nextUuid ∧
        dict = _make_mplsvpn_dict db'
          ({ row with name := p.name, status := p.status }) := by
  intro db p row hfind
  have hres : getResource db .mplsvpn p.id = .ok row := by
    rw [getResource_ok_iff, getById_mplsvpn]
    exact hfind
  refine ⟨{ db with
      mplsvpns := updateFirstMplsvpn p.id
        (fun r => { r with name := p.name, status := p.status }) db.mplsvpns },
    _make_mplsvpn_dict
      { db with
        mplsvpns := updateFirstMplsvpn p.id
          (fun r => { r with name := p.name, status := p.status }) db.mplsvpns }
      ({ row with name := p.name, status := p.status }),
    ?_, ?_, rfl, rfl, rfl, rfl, rfl, rfl, rfl⟩
  · simp only [update_mplsvpn_status_and_name, hres]
  · obtain ⟨pre, post, hl, hupd, -⟩ := updateFirstMplsvpn_decomp p.id
      (fun r => { r with name := p.name, status := p.status }) db.mplsvpns row hfind
    exact ⟨pre, post, hl, hupd⟩

/-- C8 witness: renaming and restatusing vpn v on demoDb1 touches only those
two columns and returns the projection of the updated row. -/
theorem c8_status_name_update_frame_witness :
    ∃ db' dict,
      update_mplsvpn_status_and_name demoDb1
        { id := "v", name := "renamed", status := "ACTIVE" } = .ok (db', dict) ∧
      (∃ pre post, demoDb1.mplsvpns = pre ++ vpnRowV :: post ∧
        db'.mplsvpns = pre ++
          ({ vpnRowV with name := "renamed", status := "ACTIVE" }) :: post) ∧
      db'.acmplsvpnassociations = demoDb1.acmplsvpnassociations ∧
      db'.attachmentcircuits = demoDb1.attachmentcircuits ∧
      db'.provideredges = demoDb1.provideredges ∧
      db'.acnetworkassociations = demoDb1.acnetworkassociations ∧
      db'.networks = demoDb1.networks ∧
      db'.nextUuid = demoDb1.nextUuid ∧
      dict = _make_mplsvpn_dict db'
        ({ vpnRowV with name := "renamed", status := "ACTIVE" }) :=
  c8_status_name_update_frame demoDb1
    { id := "v", name := "renamed", status := "ACTIVE" } vpnRowV rfl

/-- C9: the not-found translation of _get_resource covers only the three
entity models; called with either association model on a missing id it
propagates the generic NoResultFound untranslated. -/
theorem c9_assoc_models_untranslated :
    (∀ (db : Db) (i : String), getById db .acmplsvpnAssociation i = none →
      getResource db .acmplsvpnAssociation i = .error .noResultFound) ∧
    (∀ (db : Db) (i : String), getById db .acnetworkAssociation i = none →
      getResource db .acnetworkAssociation i = .error .noResultFound) ∧
    (∀ (i : String) (m : Model), notFoundFor m i = .noResultFound ↔
      (m = .acmplsvpnAssociation ∨ m = .acnetworkAssociation)) := by
  refine ⟨?_, ?_, ?_⟩
  · intro db i h
    unfold getResource
    rw [h]
    rfl
  · intro db i h
    unfold getResource
    rw [h]
    rfl
  · intro i m
    cases m <;> simp [notFoundFor]

/-- C9 witness: looking up a missing association row by id yields the generic
NoResultFound, not a typed error. -/
theorem c9_assoc_models_untranslated_witness :
    getResource emptyDb .acmplsvpnAssociation "x" = .error .noResultFound ∧
    getResource emptyDb .acnetworkAssociation "x" = .error .noResultFound ∧
    (notFoundFor .acmplsvpnAssociation "x" = .noResultFound ∧
      notFoundFor .mplsvpn "x" ≠ .noResultFound) :=
  ⟨c9_assoc_models_untranslated.1 emptyDb "x" rfl,
   c9_assoc_models_untranslated.2.1 emptyDb "x" rfl,
   (c9_assoc_models_untranslated.2.2 "x" .acmplsvpnAssociation).mpr (Or.inl rfl),
   by decide⟩

/-- C10: the single-pair helpers are idempotent no-ops at the boundary:
adding an already associated network changes nothing and removing an
unassociated network deletes nothing and raises no error. -/
theorem c10_single_pair_noop :
    (∀ (db : Db) (a k : String) (r0 : ACNetworkAssociation),
      db.acnetworkassociations.find? (fun r =>
        r.attachmentcircuit_id == a && r.network_id == k) = some r0 →
      add_network_to_attachmentcircuit db a k = .ok db) ∧
    (∀ (db : Db) (a k : String),
      db.acnetworkassociations.find? (fun r =>
        r.attachmentcircuit_id == a && r.network_id == k) = none →
      remove_network_from_attachmentcircuit db a k = db) := by
  constructor
  · intro db a k r0 hf
    simp only [add_network_to_attachmentcircuit, hf]
  · intro db a k hf
    simp only [remove_network_from_attachmentcircuit, hf]

/-- A circuit a attached to network n1, for the C10 witness. -/
def c10Db : Db :=
  { mplsvpns := [], attachmentcircuits := [acRowA], provideredges := [],
    acmplsvpnassociations := [],
    acnetworkassociations :=
      [{ id := "y1", status := "ACTIVE", attachmentcircuit_id := "a",
         network_id := "n1" }],
    networks := ["n1"], nextUuid := 0 }

/-- C10 witness: re-adding the existing pair (a, n1) and removing the absent
pair (a, n2) both leave c10Db untouched. -/
theorem c10_single_pair_noop_witness :
    add_network_to_attachmentcircuit c10Db "a" "n1" = .ok c10Db ∧
    remove_network_from_attachmentcircuit c10Db "a" "n2" = c10Db :=
  ⟨c10_single_pair_noop.1 c10Db "a" "n1"
      { id := "y1", status := "ACTIVE", attachmentcircuit_id := "a",
        network_id := "n1" } rfl,
   c10_single_pair_noop.2 c10Db "a" "n2" rfl⟩

end MplsvpnDb
